import Mathlib

/-!
Shallow embedding of the js-marker-clusterer clustering engine
(src/markerclusterer.js) in Lean 4, together with theorems settling the
frozen claims about it.

Conventions of the embedding:
* Geographic coordinates and pixel coordinates are exact rationals (ℚ);
  zoom levels are integers.
* Markers are external mutable objects; they are identified by a `MarkerId`
  (a natural number) and their mutable presentation state (`isAdded` flag,
  attachment to the engine's map) lives in a `MarkerMap` that the engine
  threads through its operations, mirroring the in-place mutation of the
  JavaScript source.
* The spatial index (the external `rbush` dependency) and the Google Maps
  collaborators (`LatLngBounds`, the projection, the map surface) are
  modelled from their contracts in the specification: the index is a list
  of records with `search` a rectangle filter, bounds are closed
  axis-aligned rectangles, and the projection is an abstract pair of
  coordinate conversion functions.
* Fallible operations return `Except String`: the JavaScript code throws a
  `TypeError` when it dereferences an undefined map viewport, and the
  embedding surfaces that as `Except.error`.
-/

/-- A marker identifier; markers are external objects keyed by identity. -/
abbrev MarkerId := Nat

/-- A geographic position (google.maps.LatLng). -/
structure LatLng where
  lat : ℚ
  lng : ℚ
deriving DecidableEq, Repr

/-- A rectangle of geographic coordinates (google.maps.LatLngBounds),
stored as its south-west and north-east corners. -/
structure LatLngBounds where
  swLat : ℚ
  swLng : ℚ
  neLat : ℚ
  neLng : ℚ
deriving DecidableEq, Repr

/-- Modelled from the spec: `LatLngBounds.contains` of the external Google
Maps collaborator — membership of a point in the closed rectangle. -/
def LatLngBounds.containsPt (b : LatLngBounds) (p : LatLng) : Bool :=
  decide (b.swLat ≤ p.lat) && decide (p.lat ≤ b.neLat) &&
  decide (b.swLng ≤ p.lng) && decide (p.lng ≤ b.neLng)

/-- Modelled from the spec: `LatLngBounds.extend` of the external Google
Maps collaborator — grow the rectangle to contain the given point. -/
def LatLngBounds.extendPt (b : LatLngBounds) (p : LatLng) : LatLngBounds :=
  { swLat := min b.swLat p.lat, swLng := min b.swLng p.lng,
    neLat := max b.neLat p.lat, neLng := max b.neLng p.lng }

/-- The bounds degenerate to a single point, `new LatLngBounds(pos, pos)`. -/
def pointBounds (p : LatLng) : LatLngBounds :=
  { swLat := p.lat, swLng := p.lng, neLat := p.lat, neLng := p.lng }

/-- Modelled from the spec: the map projection collaborator, converting
geographic coordinates to div pixel coordinates and back at the current
zoom level. -/
structure Projection where
  fromLatLngToDivPixel : LatLng → ℚ × ℚ
  fromDivPixelToLatLng : ℚ × ℚ → LatLng

/-- `MarkerClusterer.prototype.getExtendedBounds`: convert both corners to
pixels, push them outward by `gridSize` pixels, convert back, and extend
the original bounds by the two new corners. -/
def getExtendedBounds (proj : Projection) (gridSize : ℚ)
    (bounds : LatLngBounds) : LatLngBounds :=
  let tr : LatLng := ⟨bounds.neLat, bounds.neLng⟩
  let bl : LatLng := ⟨bounds.swLat, bounds.swLng⟩
  let trPix := proj.fromLatLngToDivPixel tr
  let trPix := (trPix.1 + gridSize, trPix.2 - gridSize)
  let blPix := proj.fromLatLngToDivPixel bl
  let blPix := (blPix.1 - gridSize, blPix.2 + gridSize)
  let ne := proj.fromDivPixelToLatLng trPix
  let sw := proj.fromDivPixelToLatLng blPix
  (bounds.extendPt ne).extendPt sw

/-- A rectangular query for the spatial index,
`[minLat, minLng, maxLat, maxLng]`. -/
structure SearchRect where
  minLat : ℚ
  minLng : ℚ
  maxLat : ℚ
  maxLng : ℚ
deriving DecidableEq, Repr

/-- `boundsToArray`: normalize the two corners of a bounds object into a
min/max query rectangle. -/
def boundsToArray (b : LatLngBounds) : SearchRect :=
  { minLat := min b.neLat b.swLat, minLng := min b.neLng b.swLng,
    maxLat := max b.neLat b.swLat, maxLng := max b.neLng b.swLng }

/-- A record of the spatial index: `[pos.lat(), pos.lng(), marker]`. -/
structure TreeNode where
  lat : ℚ
  lng : ℚ
  marker : MarkerId
deriving DecidableEq, Repr

/-- Modelled from the spec: the spatial index (the external `rbush`
dependency) is a collection of point records; `search` returns the records
whose position lies inside the closed query rectangle. -/
def treeSearch (tree : List TreeNode) (r : SearchRect) : List TreeNode :=
  tree.filter (fun nd =>
    decide (r.minLat ≤ nd.lat) && decide (nd.lat ≤ r.maxLat) &&
    decide (r.minLng ≤ nd.lng) && decide (nd.lng ≤ r.maxLng))

/-- Modelled from the spec: `rbush.remove` — remove the first record that
matches the given one. -/
def eraseNode : List TreeNode → TreeNode → List TreeNode
  | [], _ => []
  | a :: t, n => if a = n then t else a :: eraseNode t n

/-- The mutable presentation state of one marker: `isAdded` (claimed by a
cluster during the current viewport) and whether the marker is currently
attached to the engine's map (`marker.getMap() == map` vs `null`). -/
structure MarkerSt where
  isAdded : Bool
  onMap : Bool
deriving DecidableEq, Repr

/-- The shared mutable state of all markers, keyed by identity. -/
abbrev MarkerMap := MarkerId → MarkerSt

/-- Point update of the marker state, modelling in-place mutation of one
marker object. -/
def setSt (ms : MarkerMap) (i : MarkerId) (v : MarkerSt) : MarkerMap :=
  fun j => if j = i then v else ms j

/-- The engine configuration after option resolution in the
`MarkerClusterer` constructor. -/
structure Config where
  gridSize : ℚ
  minClusterSize : Nat
  maxZoom : Option ℤ
  zoomOnClick : Bool
  averageCenter : Bool
  isClusterable : MarkerId → Bool

/-- The recognized constructor options; `none` models an absent
(`undefined`) option. -/
structure MCOptions where
  gridSize : Option ℚ
  minimumClusterSize : Option Nat
  maxZoom : Option ℤ
  zoomOnClick : Option Bool
  averageCenter : Option Bool
  isClusterable : Option (MarkerId → Bool)

/-- JavaScript `x || d` for a numeric option: `0` (and absence) is falsy
and yields the default. -/
def jsOrQ (v : Option ℚ) (d : ℚ) : ℚ :=
  match v with
  | some x => if x = 0 then d else x
  | none => d

/-- JavaScript `x || d` for a natural-number option. -/
def jsOrN (v : Option Nat) (d : Nat) : Nat :=
  match v with
  | some x => if x = 0 then d else x
  | none => d

/-- JavaScript `x || null` for the `maxZoom` option: `0` is falsy. -/
def jsOrNull (v : Option ℤ) : Option ℤ :=
  match v with
  | some x => if x = 0 then none else some x
  | none => none

/-- JavaScript `x || d` for a boolean option: `false` (and absence) is
falsy and yields the default. -/
def jsOrB (v : Option Bool) (d : Bool) : Bool :=
  match v with
  | some true => true
  | _ => d

/-- Option resolution of the `MarkerClusterer` constructor:
`options.gridSize || 60`, `options.minimumClusterSize || 2`,
`options.maxZoom || null`, `options.zoomOnClick || true`,
`options.averageCenter || false`, `options.isClusterable || accept-all`. -/
def resolveOptions (o : MCOptions) : Config :=
  { gridSize := jsOrQ o.gridSize 60,
    minClusterSize := jsOrN o.minimumClusterSize 2,
    maxZoom := jsOrNull o.maxZoom,
    zoomOnClick := jsOrB o.zoomOnClick true,
    averageCenter := jsOrB o.averageCenter false,
    isClusterable := match o.isClusterable with
      | some f => f
      | none => fun _ => true }

/-- The external environment of one engine operation: marker positions
(immutable), the map's current viewport and zoom, the projection at that
zoom. -/
structure Env where
  pos : MarkerId → LatLng
  mapBounds : Option LatLngBounds
  zoom : ℤ
  proj : Projection

/-- The state of one `Cluster` object: its member markers in insertion
order, its center, its catchment bounds, and the visibility state of its
`ClusterIcon`. -/
structure Cluster where
  markers_ : List MarkerId
  center_ : Option LatLng
  bounds_ : Option LatLngBounds
  iconVisible : Bool
  iconCenter : Option LatLng
deriving DecidableEq, Repr

/-- `new Cluster(markerClusterer)`: no members, no center, no bounds, a
fresh hidden icon. -/
def Cluster.init : Cluster :=
  { markers_ := [], center_ := none, bounds_ := none,
    iconVisible := false, iconCenter := none }

/-- `Cluster.prototype.isMarkerAlreadyAdded`: membership by identity. -/
def Cluster.isMarkerAlreadyAdded (c : Cluster) (m : MarkerId) : Bool :=
  c.markers_.contains m

/-- `Cluster.prototype.calculateBounds_`: the center's point bounds
extended by the grid size under the current projection. -/
def Cluster.calculateBounds_ (cfg : Config) (env : Env)
    (center : LatLng) : LatLngBounds :=
  getExtendedBounds env.proj cfg.gridSize (pointBounds center)

/-- A `setMap` loop over a list of markers: attach each to the engine's
map (`b = true`) or to `null` (`b = false`). -/
def setMapAll (b : Bool) (l : List MarkerId) (ms : MarkerMap) : MarkerMap :=
  l.foldl (fun acc x => setSt acc x { acc x with onMap := b }) ms

/-- Set every listed marker's map to `null`. -/
def hideAll (l : List MarkerId) (ms : MarkerMap) : MarkerMap :=
  setMapAll false l ms

/-- Set every listed marker's map to the engine's map. -/
def showAll (l : List MarkerId) (ms : MarkerMap) : MarkerMap :=
  setMapAll true l ms

/-- The guard `mz && zoom > mz` of `Cluster.prototype.updateIcon`: a
configured `maxZoom` is truthy (`null` and `0` are falsy) and the current
zoom exceeds it. -/
def maxZoomExceeded (cfg : Config) (env : Env) : Bool :=
  match cfg.maxZoom with
  | none => false
  | some mz => if mz = 0 then false else decide (env.zoom > mz)

/-- `Cluster.prototype.updateIcon`: above `maxZoom` re-attach every member
to the map and leave the icon alone; below the minimum cluster size hide
the icon; otherwise place the icon at the center and show it. -/
def Cluster.updateIcon (cfg : Config) (env : Env) (c : Cluster)
    (ms : MarkerMap) : Cluster × MarkerMap :=
  if maxZoomExceeded cfg env then
    (c, showAll c.markers_ ms)
  else if c.markers_.length < cfg.minClusterSize then
    ({ c with iconVisible := false }, ms)
  else
    ({ c with iconCenter := c.center_, iconVisible := true }, ms)

/-- The center/bounds update at the start of `Cluster.prototype.addMarker`:
the first marker fixes the center at its own position; in average-center
mode a later marker moves the center to the incremental running mean
`(oldCenter * (l-1) + newPosition) / l` with `l` the new member count;
whenever the center changes the catchment bounds are recomputed. -/
def Cluster.recenter (cfg : Config) (env : Env) (c : Cluster)
    (m : MarkerId) : Cluster :=
  match c.center_ with
  | none =>
      let ctr := env.pos m
      { c with center_ := some ctr,
               bounds_ := some (Cluster.calculateBounds_ cfg env ctr) }
  | some ctr =>
      if cfg.averageCenter then
        let l : ℚ := (c.markers_.length : ℚ) + 1
        let la := (ctr.lat * (l - 1) + (env.pos m).lat) / l
        let ln := (ctr.lng * (l - 1) + (env.pos m).lng) / l
        let ctr2 : LatLng := ⟨la, ln⟩
        { c with center_ := some ctr2,
                 bounds_ := some (Cluster.calculateBounds_ cfg env ctr2) }
      else c

/-- The visibility policy at the end of `Cluster.prototype.addMarker`,
evaluated against the member list after the append: show the new marker
standalone while below the minimum cluster size, hide every member on the
add that reaches it, hide the new marker on every add at or beyond it. -/
def visPolicy (cfg : Config) (members : List MarkerId) (m : MarkerId)
    (ms : MarkerMap) : MarkerMap :=
  let len := members.length
  let ms2 := if len < cfg.minClusterSize ∧ (ms m).onMap = false then
      setSt ms m { ms m with onMap := true }
    else ms
  let ms3 := if len = cfg.minClusterSize then hideAll members ms2 else ms2
  if cfg.minClusterSize ≤ len then
    setSt ms3 m { ms3 m with onMap := false }
  else ms3

/-- `Cluster.prototype.addMarker`: reject a marker already a member;
otherwise fix or (in average-center mode) recompute the center and bounds,
flag the marker as added, append it, apply the minimum-cluster-size
visibility policy, and refresh the icon. Returns whether the marker was
added, together with the updated cluster and marker states. -/
def Cluster.addMarker (cfg : Config) (env : Env) (c : Cluster)
    (ms : MarkerMap) (m : MarkerId) : Bool × Cluster × MarkerMap :=
  if c.isMarkerAlreadyAdded m then (false, c, ms)
  else
    let c1 := Cluster.recenter cfg env c m
    let ms1 := setSt ms m { ms m with isAdded := true }
    let c2 := { c1 with markers_ := c1.markers_ ++ [m] }
    let ms4 := visPolicy cfg c2.markers_ m ms1
    let r := Cluster.updateIcon cfg env c2 ms4
    (true, r.1, r.2)

/-- The mutable state of one `MarkerClusterer` engine: tracked markers in
registration order, active clusters in creation order, the ready flag, the
spatial index, and the shared marker states. -/
structure MarkerClusterer where
  markers_ : List MarkerId
  clusters_ : List Cluster
  ready_ : Bool
  tree_ : List TreeNode
  mstate : MarkerMap

/-- `getMarkerNode(marker)`: the index record of a marker. -/
def getMarkerNode (env : Env) (m : MarkerId) : TreeNode :=
  ⟨(env.pos m).lat, (env.pos m).lng, m⟩

/-- `MarkerClusterer.prototype.pushMarkerTo_`: reset the marker's
`isAdded` flag and append it to the tracked list. (The drag-end listener
is external event wiring and outside the embedded core.) -/
def MarkerClusterer.pushMarkerTo_ (s : MarkerClusterer) (m : MarkerId) :
    MarkerClusterer :=
  { s with mstate := setSt s.mstate m { s.mstate m with isAdded := false },
           markers_ := s.markers_ ++ [m] }

/-- One iteration of the candidate loop of
`MarkerClusterer.prototype.createClusters_`: skip a record whose marker is
already clustered or ineligible, otherwise offer it to the cluster. -/
def absorbStep (cfg : Config) (env : Env) (p : Cluster × MarkerMap)
    (nd : TreeNode) : Cluster × MarkerMap :=
  if (p.2 nd.marker).isAdded then p
  else if cfg.isClusterable nd.marker = false then p
  else
    let q := Cluster.addMarker cfg env p.1 p.2 nd.marker
    (q.2.1, q.2.2)

/-- The cluster built for one seed marker in
`MarkerClusterer.prototype.createClusters_`: a fresh cluster absorbs the
seed, then every eligible unclustered record found by the spatial-index
search of the seed's position expanded by the grid size. -/
def seedCluster (cfg : Config) (env : Env) (tree : List TreeNode)
    (ms : MarkerMap) (m : MarkerId) : Cluster × MarkerMap :=
  let r0 := Cluster.addMarker cfg env Cluster.init ms m
  let bounds := getExtendedBounds env.proj cfg.gridSize
    (pointBounds (env.pos m))
  let nodes := treeSearch tree (boundsToArray bounds)
  nodes.foldl (absorbStep cfg env) (r0.2.1, r0.2.2)

/-- One iteration of the marker loop of
`MarkerClusterer.prototype.createClusters_`: skip a clustered, out-of-view
or ineligible marker; otherwise seed a new cluster with it and append the
cluster to the active list. -/
def clusterStep (cfg : Config) (env : Env) (mb : LatLngBounds)
    (s : MarkerClusterer) (m : MarkerId) : MarkerClusterer :=
  if (s.mstate m).isAdded then s
  else if mb.containsPt (env.pos m) = false then s
  else if cfg.isClusterable m = false then s
  else
    let r := seedCluster cfg env s.tree_ s.mstate m
    { s with clusters_ := s.clusters_ ++ [r.1], mstate := r.2 }

/-- `MarkerClusterer.prototype.createClusters_`: no-op before ready;
dereferencing an undefined viewport throws; otherwise run the marker loop
against the viewport extended by the grid size. -/
def MarkerClusterer.createClusters_ (cfg : Config) (env : Env)
    (s : MarkerClusterer) : Except String MarkerClusterer :=
  if !s.ready_ then .ok s
  else
    match env.mapBounds with
    | none => .error "TypeError: map.getBounds() is undefined"
    | some mb0 =>
        let mb := getExtendedBounds env.proj cfg.gridSize mb0
        .ok (s.markers_.foldl (clusterStep cfg env mb) s)

/-- `MarkerClusterer.prototype.redraw`: run a clustering pass. -/
def MarkerClusterer.redraw (cfg : Config) (env : Env)
    (s : MarkerClusterer) : Except String MarkerClusterer :=
  MarkerClusterer.createClusters_ cfg env s

/-- `MarkerClusterer.prototype.addMarker`: register the marker, insert its
record in the spatial index, and redraw unless `nodraw`. -/
def MarkerClusterer.addMarker (cfg : Config) (env : Env)
    (s : MarkerClusterer) (m : MarkerId) (nodraw : Bool) :
    Except String MarkerClusterer :=
  let s1 := s.pushMarkerTo_ m
  let s2 := { s1 with tree_ := s1.tree_ ++ [getMarkerNode env m] }
  if nodraw then .ok s2 else MarkerClusterer.createClusters_ cfg env s2

/-- `MarkerClusterer.prototype.addMarkers`: register each marker, bulk-load
the spatial index, and redraw unless `nodraw`. -/
def MarkerClusterer.addMarkers (cfg : Config) (env : Env)
    (s : MarkerClusterer) (l : List MarkerId) (nodraw : Bool) :
    Except String MarkerClusterer :=
  let s1 := l.foldl MarkerClusterer.pushMarkerTo_ s
  let s2 := { s1 with tree_ := s1.tree_ ++ l.map (getMarkerNode env) }
  if nodraw then .ok s2 else MarkerClusterer.createClusters_ cfg env s2

/-- Array `indexOf` over the tracked marker list. -/
def findIndex : List MarkerId → MarkerId → Option Nat
  | [], _ => none
  | a :: t, m => if a = m then some 0 else (findIndex t m).map (· + 1)

/-- `MarkerClusterer.prototype.removeMarker_`: report `false` for an
untracked marker; otherwise detach it from the map, splice it out of the
tracked list, and remove every structurally matching record from the
spatial index by scanning a snapshot of `tree.all()`. -/
def MarkerClusterer.removeMarker_ (s : MarkerClusterer) (m : MarkerId) :
    Bool × MarkerClusterer :=
  match findIndex s.markers_ m with
  | none => (false, s)
  | some i =>
      let ms := setSt s.mstate m { s.mstate m with onMap := false }
      let mk := s.markers_.eraseIdx i
      let tr := s.tree_.foldl
        (fun t nd => if nd.marker = m then eraseNode t nd else t) s.tree_
      (true, { s with markers_ := mk, tree_ := tr, mstate := ms })

/-- One iteration of the marker loop of
`MarkerClusterer.prototype.resetViewport`: clear the marker's `isAdded`
flag, and detach it from the map when `reset` is set. -/
def resetStep (reset : Bool) (acc : MarkerMap) (m : MarkerId) : MarkerMap :=
  let acc1 := setSt acc m { acc m with isAdded := false }
  if reset then setSt acc1 m { acc1 m with onMap := false } else acc1

/-- `MarkerClusterer.prototype.resetViewport`: drop every active cluster,
reset every tracked marker's `isAdded` flag (also detaching the markers
when `reset` is set), and clear the cluster list. -/
def MarkerClusterer.resetViewport (s : MarkerClusterer) (reset : Bool) :
    MarkerClusterer :=
  { s with clusters_ := [],
           mstate := s.markers_.foldl (resetStep reset) s.mstate }

/-- `MarkerClusterer.prototype.removeMarker`: remove the marker; when it
was present and redrawing is not suppressed, reset the viewport, run a
pass, and return `true`; otherwise return `false`. -/
def MarkerClusterer.removeMarker (cfg : Config) (env : Env)
    (s : MarkerClusterer) (m : MarkerId) (nodraw : Bool) :
    Except String (Bool × MarkerClusterer) :=
  let r := s.removeMarker_ m
  if !nodraw && r.1 then
    (MarkerClusterer.createClusters_ cfg env (r.2.resetViewport false)).map
      (fun t => (true, t))
  else .ok (false, r.2)

/-- One iteration of the loop of `MarkerClusterer.prototype.removeMarkers`:
remove one marker and accumulate whether any removal succeeded. -/
def removeStep (p : Bool × MarkerClusterer) (m : MarkerId) :
    Bool × MarkerClusterer :=
  let q := p.2.removeMarker_ m
  (p.1 || q.1, q.2)

/-- `MarkerClusterer.prototype.removeMarkers`: batched removal; one reset
and pass when at least one marker was removed and redrawing is not
suppressed. -/
def MarkerClusterer.removeMarkers (cfg : Config) (env : Env)
    (s : MarkerClusterer) (l : List MarkerId) (nodraw : Bool) :
    Except String (Bool × MarkerClusterer) :=
  let r := l.foldl removeStep (false, s)
  if !nodraw && r.1 then
    (MarkerClusterer.createClusters_ cfg env (r.2.resetViewport false)).map
      (fun t => (true, t))
  else .ok (false, r.2)

/-- `MarkerClusterer.prototype.clearMarkers`: reset the viewport detaching
all markers, empty the tracked list and the spatial index, and redraw
unless `nodraw`. -/
def MarkerClusterer.clearMarkers (cfg : Config) (env : Env)
    (s : MarkerClusterer) (nodraw : Bool) : Except String MarkerClusterer :=
  let s1 := s.resetViewport true
  let s2 := { s1 with markers_ := ([] : List MarkerId),
                      tree_ := ([] : List TreeNode) }
  if nodraw then .ok s2 else MarkerClusterer.createClusters_ cfg env s2

/-- `MarkerClusterer.prototype.repaint`: reset the viewport, then redraw. -/
def MarkerClusterer.repaint (cfg : Config) (env : Env)
    (s : MarkerClusterer) : Except String MarkerClusterer :=
  MarkerClusterer.createClusters_ cfg env (s.resetViewport false)

/-- `MarkerClusterer.prototype.setReady_`: one-way transition out of the
unready state, triggering a clustering pass. -/
def MarkerClusterer.setReady_ (cfg : Config) (env : Env)
    (s : MarkerClusterer) (r : Bool) : Except String MarkerClusterer :=
  if !s.ready_ then
    MarkerClusterer.createClusters_ cfg env { s with ready_ := r }
  else .ok s

/-- `MarkerClusterer.prototype.removeCluster`: dispose and splice out one
active cluster, identified (by identity in the source) by its index in the
active list; no-op when the handle matches no active cluster. -/
def MarkerClusterer.removeCluster (s : MarkerClusterer) (i : Nat) :
    MarkerClusterer :=
  if i < s.clusters_.length then
    { s with clusters_ := s.clusters_.eraseIdx i }
  else s

/-- The number of active clusters of which the marker is a member. -/
def MarkerClusterer.clusterCount (s : MarkerClusterer) (m : MarkerId) : Nat :=
  s.clusters_.countP (fun c => c.markers_.contains m)

/-! ### Pointwise lemmas about marker-state updates -/

theorem setSt_apply (ms : MarkerMap) (i : MarkerId) (v : MarkerSt)
    (x : MarkerId) : setSt ms i v x = if x = i then v else ms x := rfl

theorem setMapAll_isAdded (b : Bool) (l : List MarkerId) (ms : MarkerMap)
    (x : MarkerId) : ((setMapAll b l ms) x).isAdded = (ms x).isAdded := by
  induction l generalizing ms with
  | nil => rfl
  | cons a t ih =>
      show ((setMapAll b t (setSt ms a { ms a with onMap := b })) x).isAdded
        = (ms x).isAdded
      rw [ih, setSt_apply]
      by_cases hxa : x = a
      · rw [if_pos hxa, hxa]
      · rw [if_neg hxa]

theorem setMapAll_not_mem (b : Bool) (l : List MarkerId) (ms : MarkerMap)
    (x : MarkerId) (h : x ∉ l) : (setMapAll b l ms) x = ms x := by
  induction l generalizing ms with
  | nil => rfl
  | cons a t ih =>
      have hxa : x ≠ a := fun hh => h (hh ▸ List.mem_cons_self a t)
      have hxt : x ∉ t := fun hh => h (List.mem_cons_of_mem a hh)
      show setMapAll b t (setSt ms a { ms a with onMap := b }) x = ms x
      rw [ih _ hxt, setSt_apply, if_neg hxa]

theorem setMapAll_onMap_of_mem (b : Bool) (l : List MarkerId)
    (ms : MarkerMap) (x : MarkerId) (h : x ∈ l) :
    ((setMapAll b l ms) x).onMap = b := by
  induction l generalizing ms with
  | nil => cases h
  | cons a t ih =>
      show ((setMapAll b t (setSt ms a { ms a with onMap := b })) x).onMap = b
      by_cases hxt : x ∈ t
      · exact ih _ hxt
      · have hxa : x = a := (List.mem_cons.mp h).resolve_right hxt
        rw [setMapAll_not_mem _ _ _ _ hxt, setSt_apply, if_pos hxa]

theorem updateIcon_fst_markers (cfg : Config) (env : Env) (c : Cluster)
    (ms : MarkerMap) :
    (Cluster.updateIcon cfg env c ms).1.markers_ = c.markers_ := by
  unfold Cluster.updateIcon
  split
  · rfl
  · split <;> rfl

theorem updateIcon_snd_isAdded (cfg : Config) (env : Env) (c : Cluster)
    (ms : MarkerMap) (x : MarkerId) :
    ((Cluster.updateIcon cfg env c ms).2 x).isAdded = (ms x).isAdded := by
  unfold Cluster.updateIcon
  split
  · exact setMapAll_isAdded _ _ _ _
  · split <;> rfl

theorem visPolicy_isAdded (cfg : Config) (members : List MarkerId)
    (m : MarkerId) (ms : MarkerMap) (x : MarkerId) :
    ((visPolicy cfg members m ms) x).isAdded = (ms x).isAdded := by
  unfold visPolicy hideAll
  by_cases hx : x = m <;>
    (split <;> split <;> split <;>
      simp [setSt_apply, setMapAll_isAdded, hx])

theorem recenter_markers (cfg : Config) (env : Env) (c : Cluster)
    (m : MarkerId) :
    (Cluster.recenter cfg env c m).markers_ = c.markers_ := by
  unfold Cluster.recenter
  split
  · rfl
  · split <;> rfl

/-! ### Characterization of `Cluster.addMarker` -/

theorem addMarker_of_member (cfg : Config) (env : Env) (c : Cluster)
    (ms : MarkerMap) (m : MarkerId) (h : c.isMarkerAlreadyAdded m = true) :
    Cluster.addMarker cfg env c ms m = (false, c, ms) := by
  simp [Cluster.addMarker, h]

theorem addMarker_ret_true (cfg : Config) (env : Env) (c : Cluster)
    (ms : MarkerMap) (m : MarkerId) (h : c.isMarkerAlreadyAdded m = false) :
    (Cluster.addMarker cfg env c ms m).1 = true := by
  unfold Cluster.addMarker
  rw [h]
  simp

theorem addMarker_markers (cfg : Config) (env : Env) (c : Cluster)
    (ms : MarkerMap) (m : MarkerId) (h : c.isMarkerAlreadyAdded m = false) :
    (Cluster.addMarker cfg env c ms m).2.1.markers_ = c.markers_ ++ [m] := by
  unfold Cluster.addMarker
  rw [h]
  simp only [Bool.false_eq_true, if_false]
  rw [updateIcon_fst_markers]
  show (Cluster.recenter cfg env c m).markers_ ++ [m] = c.markers_ ++ [m]
  rw [recenter_markers]

theorem addMarker_isAdded (cfg : Config) (env : Env) (c : Cluster)
    (ms : MarkerMap) (m : MarkerId) (h : c.isMarkerAlreadyAdded m = false)
    (x : MarkerId) :
    ((Cluster.addMarker cfg env c ms m).2.2 x).isAdded =
      if x = m then true else (ms x).isAdded := by
  unfold Cluster.addMarker
  rw [h]
  simp only [Bool.false_eq_true, if_false]
  rw [updateIcon_snd_isAdded, visPolicy_isAdded, setSt_apply]
  by_cases hx : x = m <;> simp [hx]

theorem addMarker_eq (cfg : Config) (env : Env) (c : Cluster)
    (ms : MarkerMap) (m : MarkerId) (h : c.isMarkerAlreadyAdded m = false) :
    Cluster.addMarker cfg env c ms m =
      (true,
       Cluster.updateIcon cfg env
         { Cluster.recenter cfg env c m with
             markers_ := (Cluster.recenter cfg env c m).markers_ ++ [m] }
         (visPolicy cfg ((Cluster.recenter cfg env c m).markers_ ++ [m]) m
           (setSt ms m { ms m with isAdded := true }))) := by
  unfold Cluster.addMarker
  rw [h]
  rfl

theorem updateIcon_fst_center (cfg : Config) (env : Env) (c : Cluster)
    (ms : MarkerMap) :
    (Cluster.updateIcon cfg env c ms).1.center_ = c.center_ := by
  unfold Cluster.updateIcon
  split
  · rfl
  · split <;> rfl

theorem updateIcon_fst_bounds (cfg : Config) (env : Env) (c : Cluster)
    (ms : MarkerMap) :
    (Cluster.updateIcon cfg env c ms).1.bounds_ = c.bounds_ := by
  unfold Cluster.updateIcon
  split
  · rfl
  · split <;> rfl

theorem addMarker_center (cfg : Config) (env : Env) (c : Cluster)
    (ms : MarkerMap) (m : MarkerId) (h : c.isMarkerAlreadyAdded m = false) :
    (Cluster.addMarker cfg env c ms m).2.1.center_ =
      (Cluster.recenter cfg env c m).center_ := by
  unfold Cluster.addMarker
  rw [h]
  simp only [Bool.false_eq_true, if_false]
  rw [updateIcon_fst_center]

theorem addMarker_bounds (cfg : Config) (env : Env) (c : Cluster)
    (ms : MarkerMap) (m : MarkerId) (h : c.isMarkerAlreadyAdded m = false) :
    (Cluster.addMarker cfg env c ms m).2.1.bounds_ =
      (Cluster.recenter cfg env c m).bounds_ := by
  unfold Cluster.addMarker
  rw [h]
  simp only [Bool.false_eq_true, if_false]
  rw [updateIcon_fst_bounds]

theorem recenter_first (cfg : Config) (env : Env) (c : Cluster)
    (m : MarkerId) (h0 : c.center_ = none) :
    Cluster.recenter cfg env c m =
      { c with center_ := some (env.pos m),
               bounds_ := some (Cluster.calculateBounds_ cfg env (env.pos m)) } := by
  unfold Cluster.recenter
  rw [h0]

theorem recenter_avg (cfg : Config) (env : Env) (c : Cluster)
    (m : MarkerId) (ctr : LatLng) (ha : cfg.averageCenter = true)
    (hc : c.center_ = some ctr) :
    Cluster.recenter cfg env c m =
      { c with
          center_ := some
            ⟨(ctr.lat * ((c.markers_.length : ℚ) + 1 - 1) + (env.pos m).lat) /
               ((c.markers_.length : ℚ) + 1),
             (ctr.lng * ((c.markers_.length : ℚ) + 1 - 1) + (env.pos m).lng) /
               ((c.markers_.length : ℚ) + 1)⟩,
          bounds_ := some (Cluster.calculateBounds_ cfg env
            ⟨(ctr.lat * ((c.markers_.length : ℚ) + 1 - 1) + (env.pos m).lat) /
               ((c.markers_.length : ℚ) + 1),
             (ctr.lng * ((c.markers_.length : ℚ) + 1 - 1) + (env.pos m).lng) /
               ((c.markers_.length : ℚ) + 1)⟩) } := by
  unfold Cluster.recenter
  rw [hc]
  dsimp only
  rw [if_pos ha]

theorem addMarker_snd_ms (cfg : Config) (env : Env) (c : Cluster)
    (ms : MarkerMap) (m : MarkerId) (h : c.isMarkerAlreadyAdded m = false) :
    (Cluster.addMarker cfg env c ms m).2.2 =
      (Cluster.updateIcon cfg env
        { Cluster.recenter cfg env c m with
            markers_ := (Cluster.recenter cfg env c m).markers_ ++ [m] }
        (visPolicy cfg ((Cluster.recenter cfg env c m).markers_ ++ [m]) m
          (setSt ms m { ms m with isAdded := true }))).2 := by
  unfold Cluster.addMarker
  rw [h]
  rfl

theorem addMarker_fst_cluster (cfg : Config) (env : Env) (c : Cluster)
    (ms : MarkerMap) (m : MarkerId) (h : c.isMarkerAlreadyAdded m = false) :
    (Cluster.addMarker cfg env c ms m).2.1 =
      (Cluster.updateIcon cfg env
        { Cluster.recenter cfg env c m with
            markers_ := (Cluster.recenter cfg env c m).markers_ ++ [m] }
        (visPolicy cfg ((Cluster.recenter cfg env c m).markers_ ++ [m]) m
          (setSt ms m { ms m with isAdded := true }))).1 := by
  unfold Cluster.addMarker
  rw [h]
  rfl

theorem updateIcon_exceeded (cfg : Config) (env : Env) (c : Cluster)
    (ms : MarkerMap) (hex : maxZoomExceeded cfg env = true) :
    Cluster.updateIcon cfg env c ms = (c, showAll c.markers_ ms) := by
  simp [Cluster.updateIcon, hex]

theorem updateIcon_below (cfg : Config) (env : Env) (c : Cluster)
    (ms : MarkerMap) (hex : maxZoomExceeded cfg env = false)
    (hlt : c.markers_.length < cfg.minClusterSize) :
    Cluster.updateIcon cfg env c ms = ({ c with iconVisible := false }, ms) := by
  simp [Cluster.updateIcon, hex, hlt]

theorem updateIcon_ge (cfg : Config) (env : Env) (c : Cluster)
    (ms : MarkerMap) (hex : maxZoomExceeded cfg env = false)
    (hge : cfg.minClusterSize ≤ c.markers_.length) :
    Cluster.updateIcon cfg env c ms =
      ({ c with iconCenter := c.center_, iconVisible := true }, ms) := by
  simp [Cluster.updateIcon, hex, Nat.not_lt.mpr hge]

theorem visPolicy_below (cfg : Config) (members : List MarkerId)
    (m : MarkerId) (ms : MarkerMap)
    (h : members.length < cfg.minClusterSize) :
    ((visPolicy cfg members m ms) m).onMap = true := by
  unfold visPolicy
  have hne : members.length ≠ cfg.minClusterSize := Nat.ne_of_lt h
  have hnle : ¬ cfg.minClusterSize ≤ members.length := Nat.not_le.mpr h
  rcases Bool.eq_false_or_eq_true ((ms m).onMap) with hm | hm <;>
    simp [h, hm, hne, hnle, setSt_apply]

theorem visPolicy_reach (cfg : Config) (members : List MarkerId)
    (m : MarkerId) (ms : MarkerMap)
    (h : members.length = cfg.minClusterSize) (x : MarkerId)
    (hx : x ∈ members) : ((visPolicy cfg members m ms) x).onMap = false := by
  unfold visPolicy
  have hnlt : ¬ (members.length < cfg.minClusterSize ∧ (ms m).onMap = false) :=
    fun hh => absurd hh.1 (by rw [h]; exact Nat.lt_irrefl _)
  have hle : cfg.minClusterSize ≤ members.length := Nat.le_of_eq h.symm
  simp only [if_neg hnlt, if_pos h, if_pos hle]
  by_cases hxm : x = m
  · rw [setSt_apply, if_pos hxm]
  · rw [setSt_apply, if_neg hxm]
    exact setMapAll_onMap_of_mem _ _ _ _ hx

theorem visPolicy_ge (cfg : Config) (members : List MarkerId)
    (m : MarkerId) (ms : MarkerMap)
    (h : cfg.minClusterSize ≤ members.length) :
    ((visPolicy cfg members m ms) m).onMap = false := by
  unfold visPolicy
  simp only [if_pos h]
  rw [setSt_apply, if_pos rfl]

theorem addMarker_onMap_below (cfg : Config) (env : Env) (c : Cluster)
    (ms : MarkerMap) (m : MarkerId) (hmem : c.isMarkerAlreadyAdded m = false)
    (hex : maxZoomExceeded cfg env = false)
    (hlt : c.markers_.length + 1 < cfg.minClusterSize) :
    ((Cluster.addMarker cfg env c ms m).2.2 m).onMap = true := by
  have hlen2 : ((Cluster.recenter cfg env c m).markers_ ++ [m]).length <
      cfg.minClusterSize := by
    rw [recenter_markers]
    simpa using hlt
  rw [addMarker_snd_ms cfg env c ms m hmem,
      updateIcon_below _ _ _ _ hex hlen2]
  exact visPolicy_below _ _ _ _ hlen2

theorem addMarker_iconVisible_below (cfg : Config) (env : Env) (c : Cluster)
    (ms : MarkerMap) (m : MarkerId) (hmem : c.isMarkerAlreadyAdded m = false)
    (hex : maxZoomExceeded cfg env = false)
    (hlt : c.markers_.length + 1 < cfg.minClusterSize) :
    (Cluster.addMarker cfg env c ms m).2.1.iconVisible = false := by
  have hlen2 : ((Cluster.recenter cfg env c m).markers_ ++ [m]).length <
      cfg.minClusterSize := by
    rw [recenter_markers]
    simpa using hlt
  rw [addMarker_fst_cluster cfg env c ms m hmem,
      updateIcon_below _ _ _ _ hex hlen2]

theorem addMarker_onMap_reach (cfg : Config) (env : Env) (c : Cluster)
    (ms : MarkerMap) (m : MarkerId) (hmem : c.isMarkerAlreadyAdded m = false)
    (hex : maxZoomExceeded cfg env = false)
    (heq : c.markers_.length + 1 = cfg.minClusterSize)
    (x : MarkerId) (hx : x ∈ c.markers_ ++ [m]) :
    ((Cluster.addMarker cfg env c ms m).2.2 x).onMap = false := by
  have hr := recenter_markers cfg env c m
  have heq2 : ((Cluster.recenter cfg env c m).markers_ ++ [m]).length =
      cfg.minClusterSize := by
    rw [hr]
    simpa using heq
  have hge2 : cfg.minClusterSize ≤
      ((Cluster.recenter cfg env c m).markers_ ++ [m]).length :=
    Nat.le_of_eq heq2.symm
  rw [addMarker_snd_ms cfg env c ms m hmem,
      updateIcon_ge _ _ _ _ hex hge2]
  exact visPolicy_reach _ _ _ _ heq2 x (by rw [hr]; exact hx)

theorem addMarker_iconVisible_reach (cfg : Config) (env : Env) (c : Cluster)
    (ms : MarkerMap) (m : MarkerId) (hmem : c.isMarkerAlreadyAdded m = false)
    (hex : maxZoomExceeded cfg env = false)
    (hge : cfg.minClusterSize ≤ c.markers_.length + 1) :
    (Cluster.addMarker cfg env c ms m).2.1.iconVisible = true := by
  have hge2 : cfg.minClusterSize ≤
      ((Cluster.recenter cfg env c m).markers_ ++ [m]).length := by
    rw [recenter_markers]
    simpa using hge
  rw [addMarker_fst_cluster cfg env c ms m hmem,
      updateIcon_ge _ _ _ _ hex hge2]

theorem addMarker_onMap_ge (cfg : Config) (env : Env) (c : Cluster)
    (ms : MarkerMap) (m : MarkerId) (hmem : c.isMarkerAlreadyAdded m = false)
    (hex : maxZoomExceeded cfg env = false)
    (hge : cfg.minClusterSize ≤ c.markers_.length + 1) :
    ((Cluster.addMarker cfg env c ms m).2.2 m).onMap = false := by
  have hge2 : cfg.minClusterSize ≤
      ((Cluster.recenter cfg env c m).markers_ ++ [m]).length := by
    rw [recenter_markers]
    simpa using hge
  rw [addMarker_snd_ms cfg env c ms m hmem,
      updateIcon_ge _ _ _ _ hex hge2]
  exact visPolicy_ge _ _ _ _ hge2

/-! ### Concrete instances used by the witnesses -/

/-- A concrete linear projection: `x = lng`, `y = -lat` (screen `y` grows
downward), so extending by `gridSize` pixels adds `gridSize` degrees on
each side. -/
def projW : Projection :=
  { fromLatLngToDivPixel := fun p => (p.lng, -p.lat),
    fromDivPixelToLatLng := fun q => ⟨-q.2, q.1⟩ }

/-- The default configuration (all options absent). -/
def cfgW : Config :=
  { gridSize := 60, minClusterSize := 2, maxZoom := none,
    zoomOnClick := true, averageCenter := false,
    isClusterable := fun _ => true }

/-- All markers start unclustered and off the map. -/
def msInit : MarkerMap := fun _ => { isAdded := false, onMap := false }

/-- A concrete environment: every marker sits at the origin, the viewport
is the square `[-10, 10]²`. -/
def envW : Env :=
  { pos := fun _ => ⟨0, 0⟩, mapBounds := some ⟨-10, -10, 10, 10⟩,
    zoom := 3, proj := projW }

/-- A freshly constructed, not yet mounted engine. -/
def sUnready : MarkerClusterer :=
  { markers_ := [], clusters_ := [], ready_ := false, tree_ := [],
    mstate := msInit }

/-- A mounted engine with no markers yet. -/
def sReadyEmpty : MarkerClusterer :=
  { markers_ := [], clusters_ := [], ready_ := true, tree_ := [],
    mstate := msInit }

/-- An environment in which the map surface has no defined bounds yet. -/
def envNoBounds : Env :=
  { pos := fun _ => ⟨0, 0⟩, mapBounds := none, zoom := 3, proj := projW }

/-- Every recognized option supplied with a falsy value. -/
def oFalsy : MCOptions :=
  { gridSize := some 0, minimumClusterSize := some 0, maxZoom := some 0,
    zoomOnClick := some false, averageCenter := some false,
    isClusterable := none }

/-- An average-center configuration. -/
def cfgAvg : Config :=
  { gridSize := 60, minClusterSize := 2, maxZoom := none,
    zoomOnClick := true, averageCenter := true,
    isClusterable := fun _ => true }

/-- Markers 0, 1, 2 sit at (0,0), (0,2), (0,4). -/
def envAvg : Env :=
  { pos := fun m => if m = 0 then ⟨0, 0⟩ else if m = 1 then ⟨0, 2⟩ else ⟨0, 4⟩,
    mapBounds := some ⟨-100, -100, 100, 100⟩, zoom := 3, proj := projW }

/-- One step of the average-center scenario: add marker `m` to cluster
`c`. -/
def avgStep (c : Cluster) (m : MarkerId) : Cluster :=
  (Cluster.addMarker cfgAvg envAvg c msInit m).2.1

/-- A configuration with `minimumClusterSize = 3`. -/
def cfg3 : Config :=
  { gridSize := 60, minClusterSize := 3, maxZoom := none,
    zoomOnClick := true, averageCenter := false,
    isClusterable := fun _ => true }

/-- A configuration with `maxZoom = 5`. -/
def cfgMZ : Config :=
  { gridSize := 60, minClusterSize := 2, maxZoom := some 5,
    zoomOnClick := true, averageCenter := false,
    isClusterable := fun _ => true }

/-- An environment whose current zoom is 6. -/
def envZ6 : Env :=
  { pos := fun _ => ⟨0, 0⟩, mapBounds := some ⟨-100, -100, 100, 100⟩,
    zoom := 6, proj := projW }

/-- A cluster holding the single marker 0. -/
def clus0 : Cluster :=
  { markers_ := [0], center_ := some ⟨0, 0⟩, bounds_ := none,
    iconVisible := false, iconCenter := none }

/-! ### The claims -/

theorem createClusters_notReady (cfg : Config) (env : Env)
    (s : MarkerClusterer) (h : s.ready_ = false) :
    MarkerClusterer.createClusters_ cfg env s = .ok s := by
  simp [MarkerClusterer.createClusters_, h]

/-- C9: a clustering pass requested while the engine is not ready is
silently skipped: `createClusters_` returns without error and without
modifying the cluster list, the marker set, any marker's flags, or the
spatial index. -/
theorem C9_pass_skipped_when_not_ready (cfg : Config) (env : Env)
    (s : MarkerClusterer) (h : s.ready_ = false) :
    MarkerClusterer.createClusters_ cfg env s = .ok s :=
  createClusters_notReady cfg env s h

theorem C9_witness :
    MarkerClusterer.createClusters_ cfgW envW sUnready = .ok sUnready :=
  C9_pass_skipped_when_not_ready cfgW envW sUnready rfl

/-- C8: the spec requires a clustering pass with an undefined viewport to
be skipped without crashing, but the code of `createClusters_`
dereferences the undefined result of `map.getBounds()`
(`mapBounds.getSouthWest()`) and throws a `TypeError`: on a ready engine
with no defined map bounds the pass faults instead of leaving the state
unchanged. -/
theorem C8_undefined_bounds_throws :
    MarkerClusterer.createClusters_ cfgW envNoBounds sReadyEmpty =
      .error "TypeError: map.getBounds() is undefined" := rfl

/-- C10: every recognized constructor option supplied with a falsy value
is replaced by its default: `zoomOnClick` resolves to `true` no matter
what (it cannot be disabled), `minimumClusterSize = 0` yields 2,
`gridSize = 0` yields 60, `maxZoom = 0` yields no zoom cap, and
`averageCenter = false` coincides with its default. -/
theorem C10_falsy_options_replaced (o : MCOptions) :
    (resolveOptions o).zoomOnClick = true ∧
    (o.minimumClusterSize = some 0 → (resolveOptions o).minClusterSize = 2) ∧
    (o.gridSize = some 0 → (resolveOptions o).gridSize = 60) ∧
    (o.maxZoom = some 0 → (resolveOptions o).maxZoom = none) ∧
    (o.averageCenter = some false → (resolveOptions o).averageCenter = false) := by
  refine ⟨?_, ?_, ?_, ?_, ?_⟩
  · cases hz : o.zoomOnClick with
    | none => simp [resolveOptions, jsOrB, hz]
    | some b => cases b <;> simp [resolveOptions, jsOrB, hz]
  · intro h; simp [resolveOptions, jsOrN, h]
  · intro h; simp [resolveOptions, jsOrQ, h]
  · intro h; simp [resolveOptions, jsOrNull, h]
  · intro h; simp [resolveOptions, jsOrB, h]

theorem C10_witness :
    (resolveOptions oFalsy).zoomOnClick = true ∧
    (resolveOptions oFalsy).minClusterSize = 2 ∧
    (resolveOptions oFalsy).gridSize = 60 ∧
    (resolveOptions oFalsy).maxZoom = none ∧
    (resolveOptions oFalsy).averageCenter = false := by
  have h := C10_falsy_options_replaced oFalsy
  exact ⟨h.1, h.2.1 rfl, h.2.2.1 rfl, h.2.2.2.1 rfl, h.2.2.2.2 rfl⟩

/-- C7: refreshing a cluster's presentation with a configured `maxZoom`
exceeded by the current zoom re-attaches every member to the map and
leaves the icon untouched (no icon is shown), regardless of
`minimumClusterSize`; otherwise the icon is hidden below the minimum
cluster size and positioned at the center and shown at or above it. (The
constructor never produces `maxZoom = 0`, so `mz ≠ 0` is the faithful
reading of "a maxZoom is configured".) -/
theorem C7_updateIcon_policy (cfg : Config) (env : Env) (c : Cluster)
    (ms : MarkerMap) :
    (∀ mz : ℤ, cfg.maxZoom = some mz → mz ≠ 0 → env.zoom > mz →
        (Cluster.updateIcon cfg env c ms).1 = c ∧
        ∀ x ∈ c.markers_,
          ((Cluster.updateIcon cfg env c ms).2 x).onMap = true) ∧
    (maxZoomExceeded cfg env = false →
      (c.markers_.length < cfg.minClusterSize →
        Cluster.updateIcon cfg env c ms =
          ({ c with iconVisible := false }, ms)) ∧
      (cfg.minClusterSize ≤ c.markers_.length →
        Cluster.updateIcon cfg env c ms =
          ({ c with iconCenter := c.center_, iconVisible := true }, ms))) := by
  constructor
  · intro mz hmz hne hz
    have hex : maxZoomExceeded cfg env = true := by
      unfold maxZoomExceeded
      rw [hmz]
      simp [hne, hz]
    rw [updateIcon_exceeded cfg env c ms hex]
    exact ⟨rfl, fun x hx => setMapAll_onMap_of_mem _ _ _ _ hx⟩
  · intro hex
    exact ⟨fun hlt => updateIcon_below cfg env c ms hex hlt,
           fun hge => updateIcon_ge cfg env c ms hex hge⟩

theorem C7_witness :
    ((Cluster.updateIcon cfgMZ envZ6 clus0 msInit).2 0).onMap = true ∧
    (Cluster.updateIcon cfgMZ envZ6 clus0 msInit).1 = clus0 := by
  have h := (C7_updateIcon_policy cfgMZ envZ6 clus0 msInit).1 5 rfl
    (by decide) (by decide)
  exact ⟨h.2 0 (by decide), h.1⟩

theorem avgStep0_markers : (avgStep Cluster.init 0).markers_ = [0] := by
  unfold avgStep
  rw [addMarker_markers cfgAvg envAvg Cluster.init msInit 0 rfl]
  rfl

theorem avgStep0_center : (avgStep Cluster.init 0).center_ = some ⟨0, 0⟩ := by
  unfold avgStep
  rw [addMarker_center cfgAvg envAvg Cluster.init msInit 0 rfl,
      recenter_first cfgAvg envAvg Cluster.init 0 rfl]
  rfl

theorem avgStep_mem1 :
    (avgStep Cluster.init 0).isMarkerAlreadyAdded 1 = false := by
  unfold Cluster.isMarkerAlreadyAdded
  rw [avgStep0_markers]
  rfl

theorem avgStep1_center :
    (avgStep (avgStep Cluster.init 0) 1).center_ = some ⟨0, 1⟩ := by
  show (Cluster.addMarker cfgAvg envAvg (avgStep Cluster.init 0) msInit
    1).2.1.center_ = some ⟨0, 1⟩
  rw [addMarker_center cfgAvg envAvg _ msInit 1 avgStep_mem1,
      recenter_avg cfgAvg envAvg _ 1 ⟨0, 0⟩ rfl avgStep0_center,
      avgStep0_markers]
  norm_num [envAvg]

theorem avgStep1_markers :
    (avgStep (avgStep Cluster.init 0) 1).markers_ = [0, 1] := by
  show (Cluster.addMarker cfgAvg envAvg (avgStep Cluster.init 0) msInit
    1).2.1.markers_ = [0, 1]
  rw [addMarker_markers cfgAvg envAvg _ msInit 1 avgStep_mem1,
      avgStep0_markers]
  rfl

theorem avgStep_mem2 :
    (avgStep (avgStep Cluster.init 0) 1).isMarkerAlreadyAdded 2 = false := by
  unfold Cluster.isMarkerAlreadyAdded
  rw [avgStep1_markers]
  rfl

theorem avgStep2_center :
    (avgStep (avgStep (avgStep Cluster.init 0) 1) 2).center_ =
      some ⟨0, 2⟩ := by
  show (Cluster.addMarker cfgAvg envAvg (avgStep (avgStep Cluster.init 0) 1)
    msInit 2).2.1.center_ = some ⟨0, 2⟩
  rw [addMarker_center cfgAvg envAvg _ msInit 2 avgStep_mem2,
      recenter_avg cfgAvg envAvg _ 2 ⟨0, 1⟩ rfl avgStep1_center,
      avgStep1_markers]
  norm_num [envAvg]

/-- C5: in average-center mode the cluster center after each add is the
incremental running mean `(oldCenter * (n-1) + newPosition) / n` over lat
and lng, the catchment bounds are recomputed from the new center on every
such add (and on the first add, which fixes the center at the seed's
position); in particular adding markers at (0,0), (0,2), (0,4)
sequentially yields centers (0,0), (0,1), (0,2). -/
theorem C5_average_center (cfg : Config) (env : Env) (c : Cluster)
    (ms : MarkerMap) (m : MarkerId) :
    (c.center_ = none → c.isMarkerAlreadyAdded m = false →
       (Cluster.addMarker cfg env c ms m).2.1.center_ = some (env.pos m) ∧
       (Cluster.addMarker cfg env c ms m).2.1.bounds_ =
         some (Cluster.calculateBounds_ cfg env (env.pos m))) ∧
    (∀ ctr : LatLng, cfg.averageCenter = true → c.center_ = some ctr →
       c.isMarkerAlreadyAdded m = false →
       (Cluster.addMarker cfg env c ms m).2.1.center_ =
         some ⟨(ctr.lat * (c.markers_.length : ℚ) + (env.pos m).lat) /
                 ((c.markers_.length : ℚ) + 1),
               (ctr.lng * (c.markers_.length : ℚ) + (env.pos m).lng) /
                 ((c.markers_.length : ℚ) + 1)⟩ ∧
       (Cluster.addMarker cfg env c ms m).2.1.bounds_ =
         some (Cluster.calculateBounds_ cfg env
           ⟨(ctr.lat * (c.markers_.length : ℚ) + (env.pos m).lat) /
              ((c.markers_.length : ℚ) + 1),
            (ctr.lng * (c.markers_.length : ℚ) + (env.pos m).lng) /
              ((c.markers_.length : ℚ) + 1)⟩)) ∧
    ((avgStep Cluster.init 0).center_ = some ⟨0, 0⟩ ∧
     (avgStep (avgStep Cluster.init 0) 1).center_ = some ⟨0, 1⟩ ∧
     (avgStep (avgStep (avgStep Cluster.init 0) 1) 2).center_ =
       some ⟨0, 2⟩) := by
  have hsimp : ((c.markers_.length : ℚ) + 1 - 1) = (c.markers_.length : ℚ) := by
    ring
  refine ⟨?_, ?_, avgStep0_center, avgStep1_center, avgStep2_center⟩
  · intro h0 hmem
    rw [addMarker_center cfg env c ms m hmem,
        addMarker_bounds cfg env c ms m hmem,
        recenter_first cfg env c m h0]
    exact ⟨rfl, rfl⟩
  · intro ctr ha hc hmem
    rw [addMarker_center cfg env c ms m hmem,
        addMarker_bounds cfg env c ms m hmem,
        recenter_avg cfg env c m ctr ha hc, hsimp]
    exact ⟨rfl, rfl⟩

theorem C5_witness :
    (Cluster.addMarker cfgAvg envAvg (avgStep Cluster.init 0)
        msInit 1).2.1.center_ =
      some ⟨((⟨0, 0⟩ : LatLng).lat *
               ((avgStep Cluster.init 0).markers_.length : ℚ) +
               (envAvg.pos 1).lat) /
              (((avgStep Cluster.init 0).markers_.length : ℚ) + 1),
            ((⟨0, 0⟩ : LatLng).lng *
               ((avgStep Cluster.init 0).markers_.length : ℚ) +
               (envAvg.pos 1).lng) /
              (((avgStep Cluster.init 0).markers_.length : ℚ) + 1)⟩ :=
  ((C5_average_center cfgAvg envAvg (avgStep Cluster.init 0) msInit 1).2.1
    ⟨0, 0⟩ rfl avgStep0_center rfl).1

/-- C3: with `minimumClusterSize = 3` (and no `maxZoom` cap, the default),
`Cluster.addMarker` returns `false` with no state change on a marker
already a member; otherwise it returns `true` and appends the marker, each
add leaving the member count below 3 puts the new marker on the map (icon
hidden), the add reaching exactly 3 detaches all three members and shows
the cluster icon, and every add beyond 3 detaches the newly added marker
directly. -/
theorem C3_min_cluster_size_boundary (cfg : Config) (env : Env)
    (c : Cluster) (ms : MarkerMap) (m : MarkerId)
    (h3 : cfg.minClusterSize = 3) (hmz : cfg.maxZoom = none) :
    (c.isMarkerAlreadyAdded m = true →
       Cluster.addMarker cfg env c ms m = (false, c, ms)) ∧
    (c.isMarkerAlreadyAdded m = false →
       (Cluster.addMarker cfg env c ms m).1 = true ∧
       (Cluster.addMarker cfg env c ms m).2.1.markers_ = c.markers_ ++ [m] ∧
       (c.markers_.length + 1 < 3 →
          ((Cluster.addMarker cfg env c ms m).2.2 m).onMap = true ∧
          (Cluster.addMarker cfg env c ms m).2.1.iconVisible = false) ∧
       (c.markers_.length + 1 = 3 →
          (∀ x ∈ (Cluster.addMarker cfg env c ms m).2.1.markers_,
             ((Cluster.addMarker cfg env c ms m).2.2 x).onMap = false) ∧
          (Cluster.addMarker cfg env c ms m).2.1.iconVisible = true) ∧
       (3 < c.markers_.length + 1 →
          ((Cluster.addMarker cfg env c ms m).2.2 m).onMap = false)) := by
  have hex : maxZoomExceeded cfg env = false := by
    unfold maxZoomExceeded
    rw [hmz]
  refine ⟨fun h => addMarker_of_member cfg env c ms m h, fun hmem => ?_⟩
  refine ⟨addMarker_ret_true cfg env c ms m hmem,
          addMarker_markers cfg env c ms m hmem, ?_, ?_, ?_⟩
  · intro hlt
    have hlt' : c.markers_.length + 1 < cfg.minClusterSize := by
      rw [h3]; exact hlt
    exact ⟨addMarker_onMap_below cfg env c ms m hmem hex hlt',
           addMarker_iconVisible_below cfg env c ms m hmem hex hlt'⟩
  · intro heq
    have heq' : c.markers_.length + 1 = cfg.minClusterSize := by
      rw [h3]; exact heq
    refine ⟨fun x hx => ?_,
            addMarker_iconVisible_reach cfg env c ms m hmem hex
              (Nat.le_of_eq heq'.symm)⟩
    rw [addMarker_markers cfg env c ms m hmem] at hx
    exact addMarker_onMap_reach cfg env c ms m hmem hex heq' x hx
  · intro hgt
    have hge : cfg.minClusterSize ≤ c.markers_.length + 1 := by
      rw [h3]; omega
    exact addMarker_onMap_ge cfg env c ms m hmem hex hge

theorem C3_witness :
    ((Cluster.addMarker cfg3 envAvg Cluster.init msInit 0).2.2 0).onMap =
      true := by
  have h := C3_min_cluster_size_boundary cfg3 envAvg Cluster.init msInit 0
    rfl rfl
  exact ((h.2 rfl).2.2.1 (by decide)).1

/-! ### Marker removal -/

theorem findIndex_none (l : List MarkerId) (m : MarkerId) (h : m ∉ l) :
    findIndex l m = none := by
  induction l with
  | nil => rfl
  | cons a t ih =>
      have ha : ¬ a = m := fun he => h (he ▸ List.mem_cons_self a t)
      have ht : m ∉ t := fun hh => h (List.mem_cons_of_mem a hh)
      simp [findIndex, ha, ih ht]

theorem findIndex_some (l : List MarkerId) (m : MarkerId) (h : m ∈ l) :
    ∃ i, findIndex l m = some i := by
  induction l with
  | nil => cases h
  | cons a t ih =>
      by_cases ha : a = m
      · exact ⟨0, by simp [findIndex, ha]⟩
      · have ht : m ∈ t := by
          rcases List.mem_cons.mp h with h1 | h2
          · exact absurd h1.symm ha
          · exact h2
        obtain ⟨i, hi⟩ := ih ht
        exact ⟨i + 1, by simp [findIndex, ha, hi]⟩

theorem foldl_eraseNode_cons (m : MarkerId) (a : TreeNode) (t : List TreeNode)
    (l : List TreeNode) (ha : ¬ a.marker = m) :
    l.foldl (fun acc nd => if nd.marker = m then eraseNode acc nd else acc)
        (a :: t) =
      a :: l.foldl
        (fun acc nd => if nd.marker = m then eraseNode acc nd else acc) t := by
  induction l generalizing t with
  | nil => rfl
  | cons b l ih =>
      show List.foldl
          (fun acc nd => if nd.marker = m then eraseNode acc nd else acc)
          (if b.marker = m then eraseNode (a :: t) b else a :: t) l =
        a :: List.foldl
          (fun acc nd => if nd.marker = m then eraseNode acc nd else acc)
          (if b.marker = m then eraseNode t b else t) l
      by_cases hb : b.marker = m
      · have hab : ¬ a = b := fun he => ha (he ▸ hb)
        have he : eraseNode (a :: t) b = a :: eraseNode t b := by
          rw [eraseNode, if_neg hab]
        rw [if_pos hb, if_pos hb, he]
        exact ih (eraseNode t b)
      · rw [if_neg hb, if_neg hb]
        exact ih t

theorem treeRemoveAll (m : MarkerId) (l : List TreeNode) :
    l.foldl (fun acc nd => if nd.marker = m then eraseNode acc nd else acc)
        l =
      l.filter (fun nd => !decide (nd.marker = m)) := by
  induction l with
  | nil => rfl
  | cons a t ih =>
      show List.foldl
          (fun acc nd => if nd.marker = m then eraseNode acc nd else acc)
          (if a.marker = m then eraseNode (a :: t) a else a :: t) t = _
      rw [List.filter_cons]
      by_cases hA : a.marker = m
      · have he : eraseNode (a :: t) a = t := by
          rw [eraseNode, if_pos rfl]
        rw [if_pos hA, he, ih]
        simp [hA]
      · rw [if_neg hA, foldl_eraseNode_cons m a t t hA, ih]
        simp [hA]

/-- C6: `removeMarker` on an untracked marker returns `false` and leaves
the entire engine state (clusters, tracked markers, spatial index)
unchanged; on a tracked marker `removeMarker_` reports `true`, detaches
the marker, splices it out of the tracked list at its index, removes every
record of it from the spatial index, and the public `removeMarker` then
resets the viewport, runs a clustering pass, and returns `true`. -/
theorem C6_removeMarker (cfg : Config) (env : Env) (s : MarkerClusterer)
    (m : MarkerId) :
    (m ∉ s.markers_ →
       MarkerClusterer.removeMarker cfg env s m false = .ok (false, s)) ∧
    (m ∈ s.markers_ →
       ∃ i, findIndex s.markers_ m = some i ∧
         s.removeMarker_ m =
           (true,
            { s with
                markers_ := s.markers_.eraseIdx i,
                tree_ := s.tree_.filter (fun nd => !decide (nd.marker = m)),
                mstate := setSt s.mstate m
                  { s.mstate m with onMap := false } }) ∧
         MarkerClusterer.removeMarker cfg env s m false =
           (MarkerClusterer.createClusters_ cfg env
             ((s.removeMarker_ m).2.resetViewport false)).map
               (fun t => (true, t))) := by
  constructor
  · intro hnm
    have hf : findIndex s.markers_ m = none := findIndex_none _ _ hnm
    unfold MarkerClusterer.removeMarker MarkerClusterer.removeMarker_
    rw [hf]
    rfl
  · intro hm
    obtain ⟨i, hi⟩ := findIndex_some _ _ hm
    have hrm : s.removeMarker_ m =
        (true,
         { s with
             markers_ := s.markers_.eraseIdx i,
             tree_ := s.tree_.filter (fun nd => !decide (nd.marker = m)),
             mstate := setSt s.mstate m
               { s.mstate m with onMap := false } }) := by
      unfold MarkerClusterer.removeMarker_
      rw [hi]
      dsimp only
      rw [treeRemoveAll]
    refine ⟨i, hi, hrm, ?_⟩
    unfold MarkerClusterer.removeMarker
    have hr1 : (s.removeMarker_ m).1 = true := by rw [hrm]
    simp only [hr1, Bool.not_false, Bool.true_and, if_true]

theorem C6_witness :
    MarkerClusterer.removeMarker cfgW envW sReadyEmpty 5 false =
      .ok (false, sReadyEmpty) :=
  (C6_removeMarker cfgW envW sReadyEmpty 5).1 (by decide)

/-! ### Specification-level description of one clustering pass -/

/-- Modelled from the spec (§4.4 `createClusters` step 3d): the new
cluster absorbs, in search order, every candidate record that is neither
already clustered nor ineligible. -/
def specAbsorb (cfg : Config) (env : Env) :
    List TreeNode → Cluster → MarkerMap → Cluster × MarkerMap
  | [], c, ms => (c, ms)
  | nd :: rest, c, ms =>
      if (ms nd.marker).isAdded then specAbsorb cfg env rest c ms
      else if cfg.isClusterable nd.marker = false then
        specAbsorb cfg env rest c ms
      else
        let q := Cluster.addMarker cfg env c ms nd.marker
        specAbsorb cfg env rest q.2.1 q.2.2

/-- Modelled from the spec (§4.4 `createClusters` step 3, §5 ordering
guarantee): visiting the tracked markers in registration order, each
marker that is not yet clustered, inside the expanded viewport, and
eligible seeds exactly one new cluster, which then absorbs the records
returned by the spatial-index search of the seed's position expanded by
the grid size; the clusters are produced in that registration order. -/
def specPass (cfg : Config) (env : Env) (tree : List TreeNode)
    (mb : LatLngBounds) :
    List MarkerId → MarkerMap → List Cluster × MarkerMap
  | [], ms => ([], ms)
  | m :: rest, ms =>
      if (ms m).isAdded then specPass cfg env tree mb rest ms
      else if mb.containsPt (env.pos m) = false then
        specPass cfg env tree mb rest ms
      else if cfg.isClusterable m = false then
        specPass cfg env tree mb rest ms
      else
        let seeded := Cluster.addMarker cfg env Cluster.init ms m
        let r := specAbsorb cfg env
          (treeSearch tree (boundsToArray (getExtendedBounds env.proj
            cfg.gridSize (pointBounds (env.pos m)))))
          seeded.2.1 seeded.2.2
        let rest' := specPass cfg env tree mb rest r.2
        (r.1 :: rest'.1, rest'.2)

theorem foldl_absorbStep_eq_spec (cfg : Config) (env : Env)
    (nodes : List TreeNode) (c : Cluster) (ms : MarkerMap) :
    nodes.foldl (absorbStep cfg env) (c, ms) =
      specAbsorb cfg env nodes c ms := by
  induction nodes generalizing c ms with
  | nil => rfl
  | cons nd rest ih =>
      show rest.foldl (absorbStep cfg env) (absorbStep cfg env (c, ms) nd) = _
      unfold specAbsorb absorbStep
      by_cases h1 : (ms nd.marker).isAdded
      · rw [if_pos h1, if_pos h1]
        exact ih c ms
      · rw [if_neg h1, if_neg h1]
        by_cases h2 : cfg.isClusterable nd.marker = false
        · rw [if_pos h2, if_pos h2]
          exact ih c ms
        · rw [if_neg h2, if_neg h2]
          exact ih _ _

theorem seedCluster_eq_spec (cfg : Config) (env : Env)
    (tree : List TreeNode) (ms : MarkerMap) (m : MarkerId) :
    seedCluster cfg env tree ms m =
      specAbsorb cfg env
        (treeSearch tree (boundsToArray (getExtendedBounds env.proj
          cfg.gridSize (pointBounds (env.pos m)))))
        (Cluster.addMarker cfg env Cluster.init ms m).2.1
        (Cluster.addMarker cfg env Cluster.init ms m).2.2 :=
  foldl_absorbStep_eq_spec cfg env _ _ _

theorem clusterStep_skip (cfg : Config) (env : Env) (mb : LatLngBounds)
    (s : MarkerClusterer) (m : MarkerId)
    (h : (s.mstate m).isAdded = true ∨ mb.containsPt (env.pos m) = false ∨
      cfg.isClusterable m = false) :
    clusterStep cfg env mb s m = s := by
  unfold clusterStep
  rcases h with h | h | h
  · rw [if_pos h]
  · by_cases h1 : (s.mstate m).isAdded = true
    · rw [if_pos h1]
    · rw [if_neg h1, if_pos h]
  · by_cases h1 : (s.mstate m).isAdded = true
    · rw [if_pos h1]
    · by_cases h2 : mb.containsPt (env.pos m) = false
      · rw [if_neg h1, if_pos h2]
      · rw [if_neg h1, if_neg h2, if_pos h]

theorem clusterStep_build (cfg : Config) (env : Env) (mb : LatLngBounds)
    (s : MarkerClusterer) (m : MarkerId)
    (h1 : ¬ (s.mstate m).isAdded = true)
    (h2 : ¬ mb.containsPt (env.pos m) = false)
    (h3 : ¬ cfg.isClusterable m = false) :
    clusterStep cfg env mb s m =
      { s with
          clusters_ := s.clusters_ ++
            [(seedCluster cfg env s.tree_ s.mstate m).1],
          mstate := (seedCluster cfg env s.tree_ s.mstate m).2 } := by
  unfold clusterStep
  rw [if_neg h1, if_neg h2, if_neg h3]

theorem specPass_cons_skip (cfg : Config) (env : Env) (tree : List TreeNode)
    (mb : LatLngBounds) (m : MarkerId) (rest : List MarkerId)
    (ms : MarkerMap)
    (h : (ms m).isAdded = true ∨ mb.containsPt (env.pos m) = false ∨
      cfg.isClusterable m = false) :
    specPass cfg env tree mb (m :: rest) ms =
      specPass cfg env tree mb rest ms := by
  rw [specPass]
  rcases h with h | h | h
  · rw [if_pos h]
  · by_cases h1 : (ms m).isAdded = true
    · rw [if_pos h1]
    · rw [if_neg h1, if_pos h]
  · by_cases h1 : (ms m).isAdded = true
    · rw [if_pos h1]
    · by_cases h2 : mb.containsPt (env.pos m) = false
      · rw [if_neg h1, if_pos h2]
      · rw [if_neg h1, if_neg h2, if_pos h]

theorem specPass_cons_build (cfg : Config) (env : Env) (tree : List TreeNode)
    (mb : LatLngBounds) (m : MarkerId) (rest : List MarkerId)
    (ms : MarkerMap)
    (h1 : ¬ (ms m).isAdded = true)
    (h2 : ¬ mb.containsPt (env.pos m) = false)
    (h3 : ¬ cfg.isClusterable m = false) :
    specPass cfg env tree mb (m :: rest) ms =
      ((specAbsorb cfg env
          (treeSearch tree (boundsToArray (getExtendedBounds env.proj
            cfg.gridSize (pointBounds (env.pos m)))))
          (Cluster.addMarker cfg env Cluster.init ms m).2.1
          (Cluster.addMarker cfg env Cluster.init ms m).2.2).1 ::
        (specPass cfg env tree mb rest
          (specAbsorb cfg env
            (treeSearch tree (boundsToArray (getExtendedBounds env.proj
              cfg.gridSize (pointBounds (env.pos m)))))
            (Cluster.addMarker cfg env Cluster.init ms m).2.1
            (Cluster.addMarker cfg env Cluster.init ms m).2.2).2).1,
       (specPass cfg env tree mb rest
         (specAbsorb cfg env
           (treeSearch tree (boundsToArray (getExtendedBounds env.proj
             cfg.gridSize (pointBounds (env.pos m)))))
           (Cluster.addMarker cfg env Cluster.init ms m).2.1
           (Cluster.addMarker cfg env Cluster.init ms m).2.2).2).2) := by
  rw [specPass]
  rw [if_neg h1, if_neg h2, if_neg h3]

theorem foldl_clusterStep_eq_spec (cfg : Config) (env : Env)
    (mb : LatLngBounds) (l : List MarkerId) (s : MarkerClusterer) :
    l.foldl (clusterStep cfg env mb) s =
      { s with
          clusters_ := s.clusters_ ++
            (specPass cfg env s.tree_ mb l s.mstate).1,
          mstate := (specPass cfg env s.tree_ mb l s.mstate).2 } := by
  induction l generalizing s with
  | nil => simp [specPass]
  | cons m rest ih =>
      show rest.foldl (clusterStep cfg env mb) (clusterStep cfg env mb s m) = _
      by_cases h1 : (s.mstate m).isAdded = true
      · rw [clusterStep_skip cfg env mb s m (Or.inl h1), ih s,
            specPass_cons_skip cfg env s.tree_ mb m rest s.mstate (Or.inl h1)]
      · by_cases h2 : mb.containsPt (env.pos m) = false
        · rw [clusterStep_skip cfg env mb s m (Or.inr (Or.inl h2)), ih s,
              specPass_cons_skip cfg env s.tree_ mb m rest s.mstate
                (Or.inr (Or.inl h2))]
        · by_cases h3 : cfg.isClusterable m = false
          · rw [clusterStep_skip cfg env mb s m (Or.inr (Or.inr h3)), ih s,
                specPass_cons_skip cfg env s.tree_ mb m rest s.mstate
                  (Or.inr (Or.inr h3))]
          · rw [clusterStep_build cfg env mb s m h1 h2 h3,
                seedCluster_eq_spec,
                specPass_cons_build cfg env s.tree_ mb m rest s.mstate
                  h1 h2 h3, ih]
            dsimp only
            rw [← List.append_cons]

/-- C1: a ready clustering pass creates exactly one cluster per tracked
marker that, at the moment it is visited in registration order, is not yet
clustered, inside the expanded viewport, and eligible; each such seed's
cluster absorbs every not-yet-clustered eligible record returned by the
spatial-index search of the seed's position expanded by the grid size, and
the new clusters are appended to the active list in registration order
(first-seed-wins, no merging), exactly as the specification-level
description `specPass` states. -/
theorem C1_pass_refines_spec (cfg : Config) (env : Env)
    (s s' : MarkerClusterer) (mb0 : LatLngBounds)
    (hr : s.ready_ = true) (hb : env.mapBounds = some mb0)
    (hok : MarkerClusterer.createClusters_ cfg env s = .ok s') :
    s'.clusters_ = s.clusters_ ++
      (specPass cfg env s.tree_
        (getExtendedBounds env.proj cfg.gridSize mb0)
        s.markers_ s.mstate).1 ∧
    s'.mstate = (specPass cfg env s.tree_
        (getExtendedBounds env.proj cfg.gridSize mb0)
        s.markers_ s.mstate).2 ∧
    s'.markers_ = s.markers_ ∧ s'.tree_ = s.tree_ ∧
    s'.ready_ = s.ready_ := by
  unfold MarkerClusterer.createClusters_ at hok
  rw [hr, hb] at hok
  simp only [Bool.not_true, Bool.false_eq_true, if_false,
    Except.ok.injEq] at hok
  subst hok
  rw [foldl_clusterStep_eq_spec]
  exact ⟨rfl, rfl, rfl, rfl, rfl⟩

/-- A ready engine tracking the single marker 0 at the origin. -/
def sOneReady : MarkerClusterer :=
  { markers_ := [0], clusters_ := [], ready_ := true,
    tree_ := [⟨0, 0, 0⟩], mstate := msInit }

/-- The state after one clustering pass of `sOneReady` under `envW`. -/
def c1run : MarkerClusterer :=
  sOneReady.markers_.foldl
    (clusterStep cfgW envW
      (getExtendedBounds envW.proj cfgW.gridSize ⟨-10, -10, 10, 10⟩))
    sOneReady

theorem C1_witness :
    c1run.clusters_ = sOneReady.clusters_ ++
      (specPass cfgW envW sOneReady.tree_
        (getExtendedBounds envW.proj cfgW.gridSize ⟨-10, -10, 10, 10⟩)
        sOneReady.markers_ sOneReady.mstate).1 :=
  (C1_pass_refines_spec cfgW envW sOneReady c1run ⟨-10, -10, 10, 10⟩
    rfl rfl rfl).1

/-! ### Monotonicity of the clustered flag and idempotence of `redraw` -/

theorem addMarker_isAdded_mono (cfg : Config) (env : Env) (c : Cluster)
    (ms : MarkerMap) (m : MarkerId) (x : MarkerId)
    (hx : (ms x).isAdded = true) :
    ((Cluster.addMarker cfg env c ms m).2.2 x).isAdded = true := by
  by_cases hmem : c.isMarkerAlreadyAdded m = true
  · rw [addMarker_of_member cfg env c ms m hmem]
    exact hx
  · have hm : c.isMarkerAlreadyAdded m = false := by
      revert hmem
      cases c.isMarkerAlreadyAdded m <;> simp
    rw [addMarker_isAdded cfg env c ms m hm x]
    by_cases hxm : x = m <;> simp [hxm, hx]

theorem absorbStep_mono (cfg : Config) (env : Env) (p : Cluster × MarkerMap)
    (nd : TreeNode) (x : MarkerId) (hx : (p.2 x).isAdded = true) :
    ((absorbStep cfg env p nd).2 x).isAdded = true := by
  unfold absorbStep
  split
  · exact hx
  · split
    · exact hx
    · exact addMarker_isAdded_mono cfg env p.1 p.2 nd.marker x hx

theorem foldl_absorbStep_mono (cfg : Config) (env : Env)
    (nodes : List TreeNode) (p : Cluster × MarkerMap) (x : MarkerId)
    (hx : (p.2 x).isAdded = true) :
    ((nodes.foldl (absorbStep cfg env) p).2 x).isAdded = true := by
  induction nodes generalizing p with
  | nil => exact hx
  | cons nd rest ih =>
      exact ih (absorbStep cfg env p nd) (absorbStep_mono cfg env p nd x hx)

theorem seedCluster_mono (cfg : Config) (env : Env) (tree : List TreeNode)
    (ms : MarkerMap) (m : MarkerId) (x : MarkerId)
    (hx : (ms x).isAdded = true) :
    ((seedCluster cfg env tree ms m).2 x).isAdded = true := by
  unfold seedCluster
  exact foldl_absorbStep_mono cfg env _ _ x
    (addMarker_isAdded_mono cfg env Cluster.init ms m x hx)

theorem seedCluster_self (cfg : Config) (env : Env) (tree : List TreeNode)
    (ms : MarkerMap) (m : MarkerId) :
    ((seedCluster cfg env tree ms m).2 m).isAdded = true := by
  unfold seedCluster
  apply foldl_absorbStep_mono
  rw [addMarker_isAdded cfg env Cluster.init ms m rfl m]
  simp

theorem clusterStep_fields (cfg : Config) (env : Env) (mb : LatLngBounds)
    (s : MarkerClusterer) (m : MarkerId) :
    (clusterStep cfg env mb s m).markers_ = s.markers_ ∧
    (clusterStep cfg env mb s m).tree_ = s.tree_ ∧
    (clusterStep cfg env mb s m).ready_ = s.ready_ := by
  unfold clusterStep
  split
  · exact ⟨rfl, rfl, rfl⟩
  · split
    · exact ⟨rfl, rfl, rfl⟩
    · split
      · exact ⟨rfl, rfl, rfl⟩
      · exact ⟨rfl, rfl, rfl⟩

theorem foldl_clusterStep_fields (cfg : Config) (env : Env)
    (mb : LatLngBounds) (l : List MarkerId) (s : MarkerClusterer) :
    (l.foldl (clusterStep cfg env mb) s).markers_ = s.markers_ ∧
    (l.foldl (clusterStep cfg env mb) s).tree_ = s.tree_ ∧
    (l.foldl (clusterStep cfg env mb) s).ready_ = s.ready_ := by
  induction l generalizing s with
  | nil => exact ⟨rfl, rfl, rfl⟩
  | cons a t ih =>
      have h1 := clusterStep_fields cfg env mb s a
      have h2 := ih (clusterStep cfg env mb s a)
      exact ⟨h2.1.trans h1.1, h2.2.1.trans h1.2.1, h2.2.2.trans h1.2.2⟩

theorem clusterStep_mono (cfg : Config) (env : Env) (mb : LatLngBounds)
    (s : MarkerClusterer) (m : MarkerId) (x : MarkerId)
    (hx : (s.mstate x).isAdded = true) :
    ((clusterStep cfg env mb s m).mstate x).isAdded = true := by
  unfold clusterStep
  split
  · exact hx
  · split
    · exact hx
    · split
      · exact hx
      · exact seedCluster_mono cfg env s.tree_ s.mstate m x hx

theorem foldl_clusterStep_mono (cfg : Config) (env : Env)
    (mb : LatLngBounds) (l : List MarkerId) (s : MarkerClusterer)
    (x : MarkerId) (hx : (s.mstate x).isAdded = true) :
    ((l.foldl (clusterStep cfg env mb) s).mstate x).isAdded = true := by
  induction l generalizing s with
  | nil => exact hx
  | cons a t ih =>
      exact ih (clusterStep cfg env mb s a)
        (clusterStep_mono cfg env mb s a x hx)

theorem clusterStep_seedsFlag (cfg : Config) (env : Env)
    (mb : LatLngBounds) (s : MarkerClusterer) (m : MarkerId)
    (h1 : ¬ (s.mstate m).isAdded = true)
    (h2 : ¬ mb.containsPt (env.pos m) = false)
    (h3 : ¬ cfg.isClusterable m = false) :
    ((clusterStep cfg env mb s m).mstate m).isAdded = true := by
  rw [clusterStep_build cfg env mb s m h1 h2 h3]
  exact seedCluster_self cfg env s.tree_ s.mstate m

theorem foldl_clusterStep_processes (cfg : Config) (env : Env)
    (mb : LatLngBounds) (l : List MarkerId) (s : MarkerClusterer)
    (m : MarkerId) (hm : m ∈ l) :
    ((l.foldl (clusterStep cfg env mb) s).mstate m).isAdded = true ∨
    mb.containsPt (env.pos m) = false ∨ cfg.isClusterable m = false := by
  induction l generalizing s with
  | nil => cases hm
  | cons a t ih =>
      show ((t.foldl (clusterStep cfg env mb)
        (clusterStep cfg env mb s a)).mstate m).isAdded = true ∨ _ ∨ _
      rcases List.mem_cons.mp hm with heq | hmt
      · subst heq
        by_cases h2 : mb.containsPt (env.pos m) = false
        · exact Or.inr (Or.inl h2)
        · by_cases h3 : cfg.isClusterable m = false
          · exact Or.inr (Or.inr h3)
          · left
            apply foldl_clusterStep_mono
            by_cases h1 : (s.mstate m).isAdded = true
            · exact clusterStep_mono cfg env mb s m m h1
            · exact clusterStep_seedsFlag cfg env mb s m h1 h2 h3
      · exact ih (clusterStep cfg env mb s a) hmt

theorem foldl_clusterStep_skip_all (cfg : Config) (env : Env)
    (mb : LatLngBounds) (l : List MarkerId) (s : MarkerClusterer)
    (h : ∀ m ∈ l, (s.mstate m).isAdded = true ∨
      mb.containsPt (env.pos m) = false ∨ cfg.isClusterable m = false) :
    l.foldl (clusterStep cfg env mb) s = s := by
  induction l with
  | nil => rfl
  | cons a t ih =>
      show t.foldl (clusterStep cfg env mb) (clusterStep cfg env mb s a) = s
      rw [clusterStep_skip cfg env mb s a (h a (List.mem_cons_self a t))]
      exact ih (fun m hmt => h m (List.mem_cons_of_mem a hmt))

/-- C4: calling `redraw` twice in succession with the same viewport,
markers and flags is idempotent: the second pass returns the state of the
first pass entirely unchanged, so it adds zero new clusters, leaves the
cluster list's membership identical, and touches no already-clustered
marker. -/
theorem C4_redraw_idempotent (cfg : Config) (env : Env)
    (s s₁ : MarkerClusterer)
    (h : MarkerClusterer.createClusters_ cfg env s = .ok s₁) :
    MarkerClusterer.createClusters_ cfg env s₁ = .ok s₁ := by
  by_cases hr : s.ready_ = true
  · cases hb : env.mapBounds with
    | none =>
        unfold MarkerClusterer.createClusters_ at h
        rw [hr, hb] at h
        simp at h
    | some mb0 =>
        unfold MarkerClusterer.createClusters_ at h
        rw [hr, hb] at h
        simp only [Bool.not_true, Bool.false_eq_true, if_false,
          Except.ok.injEq] at h
        subst h
        have hfields := foldl_clusterStep_fields cfg env
          (getExtendedBounds env.proj cfg.gridSize mb0) s.markers_ s
        unfold MarkerClusterer.createClusters_
        rw [hfields.2.2, hr, hb]
        simp only [Bool.not_true, Bool.false_eq_true, if_false]
        rw [hfields.1]
        rw [foldl_clusterStep_skip_all cfg env
          (getExtendedBounds env.proj cfg.gridSize mb0) s.markers_ _
          (fun m hm => foldl_clusterStep_processes cfg env
            (getExtendedBounds env.proj cfg.gridSize mb0) s.markers_ s m hm)]
  · have hf : s.ready_ = false := by
      revert hr
      cases s.ready_ <;> simp
    rw [createClusters_notReady cfg env s hf, Except.ok.injEq] at h
    subst h
    exact createClusters_notReady cfg env s hf

theorem C4_witness :
    MarkerClusterer.createClusters_ cfgW envW c1run = .ok c1run :=
  C4_redraw_idempotent cfgW envW sOneReady c1run rfl

/-! ### The membership invariant -/

theorem contains_iff_mem (l : List MarkerId) (a : MarkerId) :
    l.contains a = true ↔ a ∈ l := by
  induction l with
  | nil => simp
  | cons b t ih =>
      simp only [List.contains_cons] at *
      constructor
      · intro h
        rcases Bool.or_eq_true_iff.mp h with h | h
        · exact (Nat.beq_eq.mp (by simpa using h)) ▸ List.mem_cons_self b t
        · exact List.mem_cons_of_mem b (ih.mp h)
      · intro h
        rcases List.mem_cons.mp h with h | h
        · subst h
          simp
        · exact Bool.or_eq_true_iff.mpr (Or.inr (ih.mpr h))

theorem contains_false_iff (l : List MarkerId) (a : MarkerId) :
    l.contains a = false ↔ a ∉ l := by
  constructor
  · intro h hm
    rw [(contains_iff_mem l a).mpr hm] at h
    cases h
  · intro h
    cases hc : l.contains a
    · rfl
    · exact absurd ((contains_iff_mem l a).mp hc) h

/-- The invariant of claim C2: every tracked marker flagged as clustered
belongs to exactly one active cluster, every tracked marker not flagged
belongs to none, and every member of an active cluster is flagged. -/
def EngineInv (s : MarkerClusterer) : Prop :=
  (∀ m ∈ s.markers_,
     s.clusterCount m = if (s.mstate m).isAdded then 1 else 0) ∧
  (∀ c ∈ s.clusters_, ∀ x ∈ c.markers_, (s.mstate x).isAdded = true)

/-- The invariant threaded through the construction of one new cluster
during a pass: relative to the pre-step state `s`, the cluster under
construction accounts for exactly the markers flagged since the step
began, its members are all flagged, and flags only ever turn on. -/
def InnerInv (s : MarkerClusterer) (p : Cluster × MarkerMap) : Prop :=
  (∀ x ∈ s.markers_,
     s.clusterCount x + (if p.1.markers_.contains x then 1 else 0) =
       if (p.2 x).isAdded then 1 else 0) ∧
  (∀ x ∈ p.1.markers_, (p.2 x).isAdded = true) ∧
  (∀ x, (s.mstate x).isAdded = true → (p.2 x).isAdded = true)

theorem absorbStep_inner (cfg : Config) (env : Env) (s : MarkerClusterer)
    (p : Cluster × MarkerMap) (nd : TreeNode) (hp : InnerInv s p) :
    InnerInv s (absorbStep cfg env p nd) := by
  unfold absorbStep
  split
  · exact hp
  · split
    · exact hp
    · rename_i hflag _
      have hflag' : (p.2 nd.marker).isAdded = false := by
        revert hflag
        cases (p.2 nd.marker).isAdded <;> simp
      have hnotmem : nd.marker ∉ p.1.markers_ := fun hmem => by
        rw [hp.2.1 nd.marker hmem] at hflag'
        cases hflag'
      have hmem : p.1.isMarkerAlreadyAdded nd.marker = false :=
        (contains_false_iff _ _).mpr hnotmem
      refine ⟨?_, ?_, ?_⟩
      · intro x hx
        rw [addMarker_markers cfg env p.1 p.2 nd.marker hmem,
            addMarker_isAdded cfg env p.1 p.2 nd.marker hmem x]
        by_cases hxm : x = nd.marker
        · subst hxm
          have h0 := hp.1 nd.marker hx
          rw [hflag', (contains_false_iff _ _).mpr hnotmem] at h0
          simp only [Bool.false_eq_true, if_false, Nat.add_zero] at h0
          rw [(contains_iff_mem _ _).mpr
            (List.mem_append.mpr (Or.inr (List.mem_singleton.mpr rfl)))]
          simp [h0]
        · have hcc : (p.1.markers_ ++ [nd.marker]).contains x =
              p.1.markers_.contains x := by
            cases hcx : p.1.markers_.contains x
            · exact (contains_false_iff _ _).mpr (fun hmm => by
                rcases List.mem_append.mp hmm with hmm | hmm
                · exact absurd hmm ((contains_false_iff _ _).mp hcx)
                · exact hxm (List.mem_singleton.mp hmm))
            · exact (contains_iff_mem _ _).mpr
                (List.mem_append.mpr (Or.inl ((contains_iff_mem _ _).mp hcx)))
          rw [hcc, if_neg hxm]
          exact hp.1 x hx
      · intro x hx
        rw [addMarker_markers cfg env p.1 p.2 nd.marker hmem] at hx
        rw [addMarker_isAdded cfg env p.1 p.2 nd.marker hmem x]
        by_cases hxm : x = nd.marker
        · rw [if_pos hxm]
        · rw [if_neg hxm]
          rcases List.mem_append.mp hx with hx | hx
          · exact hp.2.1 x hx
          · exact absurd (List.mem_singleton.mp hx) hxm
      · intro x hx
        rw [addMarker_isAdded cfg env p.1 p.2 nd.marker hmem x]
        by_cases hxm : x = nd.marker
        · rw [if_pos hxm]
        · rw [if_neg hxm]
          exact hp.2.2 x hx

theorem foldl_absorbStep_inner (cfg : Config) (env : Env)
    (s : MarkerClusterer) (nodes : List TreeNode) (p : Cluster × MarkerMap)
    (hp : InnerInv s p) :
    InnerInv s (nodes.foldl (absorbStep cfg env) p) := by
  induction nodes generalizing p with
  | nil => exact hp
  | cons nd rest ih =>
      exact ih (absorbStep cfg env p nd) (absorbStep_inner cfg env s p nd hp)

theorem init_markers : Cluster.init.markers_ = [] := rfl

theorem count_zero_of_not_flag (s : MarkerClusterer) (m : MarkerId)
    (hall : ∀ c ∈ s.clusters_, ∀ x ∈ c.markers_, (s.mstate x).isAdded = true)
    (hm : (s.mstate m).isAdded = false) : s.clusterCount m = 0 := by
  unfold MarkerClusterer.clusterCount
  rw [List.countP_eq_zero]
  intro c hc hpc
  have hx := hall c hc m ((contains_iff_mem _ _).mp hpc)
  rw [hm] at hx
  cases hx

theorem InnerInv_seed (cfg : Config) (env : Env) (s : MarkerClusterer)
    (m : MarkerId) (hm : m ∈ s.markers_) (hinv : EngineInv s)
    (hflag : (s.mstate m).isAdded = false) :
    InnerInv s ((Cluster.addMarker cfg env Cluster.init s.mstate m).2.1,
                (Cluster.addMarker cfg env Cluster.init s.mstate m).2.2) := by
  have hmem : Cluster.init.isMarkerAlreadyAdded m = false := rfl
  refine ⟨?_, ?_, ?_⟩
  · intro x hx
    show s.clusterCount x + _ = _
    rw [addMarker_markers cfg env Cluster.init s.mstate m hmem,
        addMarker_isAdded cfg env Cluster.init s.mstate m hmem x,
        init_markers]
    by_cases hxm : x = m
    · subst hxm
      have h0 : s.clusterCount x = 0 :=
        count_zero_of_not_flag s x hinv.2 hflag
      rw [(contains_iff_mem _ _).mpr
        (List.mem_append.mpr (Or.inr (List.mem_singleton.mpr rfl)))]
      simp [h0]
    · have hcf : (([] ++ [m] : List MarkerId)).contains x = false :=
        (contains_false_iff _ _).mpr (fun hmm => hxm (by simpa using hmm))
      rw [hcf, if_neg hxm]
      simpa using hinv.1 x hx
  · intro x hx
    show ((Cluster.addMarker cfg env Cluster.init s.mstate m).2.2 x).isAdded
      = true
    rw [addMarker_markers cfg env Cluster.init s.mstate m hmem,
        init_markers] at hx
    have hxm : x = m := by simpa using hx
    rw [addMarker_isAdded cfg env Cluster.init s.mstate m hmem x, if_pos hxm]
  · intro x hx
    show ((Cluster.addMarker cfg env Cluster.init s.mstate m).2.2 x).isAdded
      = true
    rw [addMarker_isAdded cfg env Cluster.init s.mstate m hmem x]
    by_cases hxm : x = m
    · rw [if_pos hxm]
    · rw [if_neg hxm]
      exact hx

theorem EngineInv_clusterStep (cfg : Config) (env : Env) (mb : LatLngBounds)
    (s : MarkerClusterer) (m : MarkerId) (hm : m ∈ s.markers_)
    (hinv : EngineInv s) : EngineInv (clusterStep cfg env mb s m) := by
  by_cases h1 : (s.mstate m).isAdded = true
  · rw [clusterStep_skip cfg env mb s m (Or.inl h1)]
    exact hinv
  · by_cases h2 : mb.containsPt (env.pos m) = false
    · rw [clusterStep_skip cfg env mb s m (Or.inr (Or.inl h2))]
      exact hinv
    · by_cases h3 : cfg.isClusterable m = false
      · rw [clusterStep_skip cfg env mb s m (Or.inr (Or.inr h3))]
        exact hinv
      · rw [clusterStep_build cfg env mb s m h1 h2 h3]
        have hflag : (s.mstate m).isAdded = false := by
          revert h1
          cases (s.mstate m).isAdded <;> simp
        have hinner := foldl_absorbStep_inner cfg env s
          (treeSearch s.tree_ (boundsToArray (getExtendedBounds env.proj
            cfg.gridSize (pointBounds (env.pos m)))))
          ((Cluster.addMarker cfg env Cluster.init s.mstate m).2.1,
           (Cluster.addMarker cfg env Cluster.init s.mstate m).2.2)
          (InnerInv_seed cfg env s m hm hinv hflag)
        have hsc : InnerInv s ((seedCluster cfg env s.tree_ s.mstate m).1,
            (seedCluster cfg env s.tree_ s.mstate m).2) := hinner
        constructor
        · intro x hx
          show List.countP (fun c => c.markers_.contains x)
              (s.clusters_ ++ [(seedCluster cfg env s.tree_ s.mstate m).1]) =
            if (((seedCluster cfg env s.tree_ s.mstate m).2) x).isAdded
              then 1 else 0
          rw [List.countP_append, List.countP_cons, List.countP_nil,
              Nat.zero_add]
          exact hsc.1 x hx
        · intro c hc x hx
          rcases List.mem_append.mp hc with hc | hc
          · exact hsc.2.2 x (hinv.2 c hc x hx)
          · rw [List.mem_singleton.mp hc] at hx
            exact hsc.2.1 x hx

theorem EngineInv_foldPass (cfg : Config) (env : Env) (mb : LatLngBounds)
    (l : List MarkerId) (s : MarkerClusterer)
    (hl : ∀ m ∈ l, m ∈ s.markers_) (hinv : EngineInv s) :
    EngineInv (l.foldl (clusterStep cfg env mb) s) := by
  induction l generalizing s with
  | nil => exact hinv
  | cons a t ih =>
      show EngineInv (t.foldl (clusterStep cfg env mb)
        (clusterStep cfg env mb s a))
      apply ih
      · intro m hm
        rw [(clusterStep_fields cfg env mb s a).1]
        exact hl m (List.mem_cons_of_mem a hm)
      · exact EngineInv_clusterStep cfg env mb s a
          (hl a (List.mem_cons_self a t)) hinv

theorem EngineInv_pass (cfg : Config) (env : Env) (s s' : MarkerClusterer)
    (hinv : EngineInv s)
    (h : MarkerClusterer.createClusters_ cfg env s = .ok s') :
    EngineInv s' := by
  by_cases hr : s.ready_ = true
  · cases hb : env.mapBounds with
    | none =>
        unfold MarkerClusterer.createClusters_ at h
        rw [hr, hb] at h
        simp at h
    | some mb0 =>
        unfold MarkerClusterer.createClusters_ at h
        rw [hr, hb] at h
        simp only [Bool.not_true, Bool.false_eq_true, if_false,
          Except.ok.injEq] at h
        subst h
        exact EngineInv_foldPass cfg env _ s.markers_ s (fun m hm => hm) hinv
  · have hf : s.ready_ = false := by
      revert hr
      cases s.ready_ <;> simp
    rw [createClusters_notReady cfg env s hf, Except.ok.injEq] at h
    subst h
    exact hinv

theorem push_mstate_isAdded (s : MarkerClusterer) (a x : MarkerId) :
    ((s.pushMarkerTo_ a).mstate x).isAdded =
      if x = a then false else (s.mstate x).isAdded := by
  show (setSt s.mstate a { s.mstate a with isAdded := false } x).isAdded = _
  rw [setSt_apply]
  by_cases hxa : x = a <;> simp [hxa]

theorem EngineInv_push (s : MarkerClusterer) (m : MarkerId)
    (hflag : (s.mstate m).isAdded = false) (hinv : EngineInv s) :
    EngineInv (s.pushMarkerTo_ m) := by
  constructor
  · intro x hx
    have hpm : (s.pushMarkerTo_ m).markers_ = s.markers_ ++ [m] := rfl
    rw [hpm] at hx
    show s.clusterCount x = _
    rw [push_mstate_isAdded s m x]
    by_cases hxm : x = m
    · rw [if_pos hxm]
      subst hxm
      simp [count_zero_of_not_flag s x hinv.2 hflag]
    · rw [if_neg hxm]
      have hx' : x ∈ s.markers_ := by
        rcases List.mem_append.mp hx with h | h
        · exact h
        · exact absurd (List.mem_singleton.mp h) hxm
      exact hinv.1 x hx'
  · intro c hc x hx
    rw [push_mstate_isAdded s m x]
    have hflagx := hinv.2 c hc x hx
    by_cases hxm : x = m
    · subst hxm
      rw [hflagx] at hflag
      cases hflag
    · rw [if_neg hxm]
      exact hflagx

theorem resetStep_isAdded (r : Bool) (acc : MarkerMap) (m x : MarkerId) :
    ((resetStep r acc m) x).isAdded =
      if x = m then false else (acc x).isAdded := by
  unfold resetStep
  split <;> (rw [setSt_apply] <;> by_cases hxm : x = m <;>
    simp [hxm, setSt_apply])

theorem foldl_resetStep_isAdded (r : Bool) (l : List MarkerId)
    (acc : MarkerMap) (x : MarkerId) :
    ((l.foldl (resetStep r) acc) x).isAdded =
      if x ∈ l then false else (acc x).isAdded := by
  induction l generalizing acc with
  | nil => simp
  | cons a t ih =>
      show ((t.foldl (resetStep r) (resetStep r acc a)) x).isAdded = _
      rw [ih (resetStep r acc a), resetStep_isAdded r acc a x]
      by_cases hxt : x ∈ t
      · simp [hxt, List.mem_cons_of_mem a hxt]
      · by_cases hxa : x = a
        · simp [hxt, hxa]
        · have : x ∉ (a :: t) := by
            intro hh
            rcases List.mem_cons.mp hh with hh | hh
            · exact hxa hh
            · exact hxt hh
          simp [hxt, hxa, this]

theorem EngineInv_reset (s : MarkerClusterer) (r : Bool) :
    EngineInv (s.resetViewport r) := by
  constructor
  · intro x hx
    have h0 : (s.resetViewport r).clusterCount x = 0 := rfl
    rw [h0]
    have hx' : x ∈ s.markers_ := hx
    show 0 = if ((s.markers_.foldl (resetStep r) s.mstate) x).isAdded
      then 1 else 0
    rw [foldl_resetStep_isAdded r s.markers_ s.mstate x, if_pos hx']
    rfl
  · intro c hc x hx
    exact absurd hc (List.not_mem_nil c)

theorem setSt_onMap_isAdded (ms : MarkerMap) (m : MarkerId) (b : Bool)
    (x : MarkerId) :
    ((setSt ms m { ms m with onMap := b }) x).isAdded = (ms x).isAdded := by
  rw [setSt_apply]
  by_cases hxm : x = m <;> simp [hxm]

theorem EngineInv_removeMarkerAux (s : MarkerClusterer) (m : MarkerId)
    (hinv : EngineInv s) : EngineInv (s.removeMarker_ m).2 := by
  unfold MarkerClusterer.removeMarker_
  cases hfi : findIndex s.markers_ m with
  | none => exact hinv
  | some i =>
      dsimp only
      constructor
      · intro x hx
        have hxx : x ∈ s.markers_ :=
          (List.eraseIdx_sublist s.markers_ i).subset hx
        show s.clusterCount x = _
        rw [setSt_onMap_isAdded]
        exact hinv.1 x hxx
      · intro c hc x hx
        rw [setSt_onMap_isAdded]
        exact hinv.2 c hc x hx

theorem EngineInv_pushFold (l : List MarkerId) (s : MarkerClusterer)
    (hinv : EngineInv s) (hl : ∀ m ∈ l, (s.mstate m).isAdded = false) :
    EngineInv (l.foldl MarkerClusterer.pushMarkerTo_ s) := by
  induction l generalizing s with
  | nil => exact hinv
  | cons a t ih =>
      show EngineInv (t.foldl MarkerClusterer.pushMarkerTo_
        (s.pushMarkerTo_ a))
      apply ih
      · exact EngineInv_push s a (hl a (List.mem_cons_self a t)) hinv
      · intro m hm
        rw [push_mstate_isAdded s a m]
        by_cases hma : m = a
        · rw [if_pos hma]
        · rw [if_neg hma]
          exact hl m (List.mem_cons_of_mem a hm)

theorem EngineInv_removeFold (l : List MarkerId) (b : Bool)
    (s : MarkerClusterer) (hinv : EngineInv s) :
    EngineInv ((l.foldl removeStep (b, s)).2) := by
  induction l generalizing b s with
  | nil => exact hinv
  | cons a t ih =>
      show EngineInv ((t.foldl removeStep (removeStep (b, s) a)).2)
      exact ih (b || (s.removeMarker_ a).1) (s.removeMarker_ a).2
        (EngineInv_removeMarkerAux s a hinv)

/-- The engine states reachable from a fresh engine by its public
operations — `removeCluster` excluded, and every registered marker
unclustered (`isAdded = false`) at the moment it is registered.  The
environment (viewport, zoom, projection, marker positions) may change
arbitrarily between operations. -/
inductive Reach (cfg : Config) : MarkerClusterer → Prop where
  | init (ms : MarkerMap) :
      Reach cfg { markers_ := [], clusters_ := [], ready_ := false,
                  tree_ := [], mstate := ms }
  | setReady (s s' : MarkerClusterer) (env : Env) (r : Bool) :
      Reach cfg s → MarkerClusterer.setReady_ cfg env s r = .ok s' →
      Reach cfg s'
  | addMarker (s s' : MarkerClusterer) (env : Env) (m : MarkerId)
      (nodraw : Bool) :
      Reach cfg s → (s.mstate m).isAdded = false →
      MarkerClusterer.addMarker cfg env s m nodraw = .ok s' → Reach cfg s'
  | addMarkers (s s' : MarkerClusterer) (env : Env) (l : List MarkerId)
      (nodraw : Bool) :
      Reach cfg s → (∀ m ∈ l, (s.mstate m).isAdded = false) →
      MarkerClusterer.addMarkers cfg env s l nodraw = .ok s' → Reach cfg s'
  | removeMarker (s : MarkerClusterer) (env : Env) (m : MarkerId)
      (nodraw : Bool) (r : Bool) (s' : MarkerClusterer) :
      Reach cfg s →
      MarkerClusterer.removeMarker cfg env s m nodraw = .ok (r, s') →
      Reach cfg s'
  | removeMarkers (s : MarkerClusterer) (env : Env) (l : List MarkerId)
      (nodraw : Bool) (r : Bool) (s' : MarkerClusterer) :
      Reach cfg s →
      MarkerClusterer.removeMarkers cfg env s l nodraw = .ok (r, s') →
      Reach cfg s'
  | redraw (s s' : MarkerClusterer) (env : Env) :
      Reach cfg s → MarkerClusterer.redraw cfg env s = .ok s' → Reach cfg s'
  | repaint (s s' : MarkerClusterer) (env : Env) :
      Reach cfg s → MarkerClusterer.repaint cfg env s = .ok s' →
      Reach cfg s'
  | resetViewport (s : MarkerClusterer) (reset : Bool) :
      Reach cfg s → Reach cfg (s.resetViewport reset)
  | clearMarkers (s s' : MarkerClusterer) (env : Env) (nodraw : Bool) :
      Reach cfg s → MarkerClusterer.clearMarkers cfg env s nodraw = .ok s' →
      Reach cfg s'

/-- The engine states reachable from a fresh engine by all of its public
operations, `removeCluster` included and with no restriction on the
markers passed to `addMarker`/`addMarkers`. -/
inductive ReachFull (cfg : Config) : MarkerClusterer → Prop where
  | init (ms : MarkerMap) :
      ReachFull cfg { markers_ := [], clusters_ := [], ready_ := false,
                      tree_ := [], mstate := ms }
  | setReady (s s' : MarkerClusterer) (env : Env) (r : Bool) :
      ReachFull cfg s → MarkerClusterer.setReady_ cfg env s r = .ok s' →
      ReachFull cfg s'
  | addMarker (s s' : MarkerClusterer) (env : Env) (m : MarkerId)
      (nodraw : Bool) :
      ReachFull cfg s →
      MarkerClusterer.addMarker cfg env s m nodraw = .ok s' →
      ReachFull cfg s'
  | addMarkers (s s' : MarkerClusterer) (env : Env) (l : List MarkerId)
      (nodraw : Bool) :
      ReachFull cfg s →
      MarkerClusterer.addMarkers cfg env s l nodraw = .ok s' →
      ReachFull cfg s'
  | removeMarker (s : MarkerClusterer) (env : Env) (m : MarkerId)
      (nodraw : Bool) (r : Bool) (s' : MarkerClusterer) :
      ReachFull cfg s →
      MarkerClusterer.removeMarker cfg env s m nodraw = .ok (r, s') →
      ReachFull cfg s'
  | removeMarkers (s : MarkerClusterer) (env : Env) (l : List MarkerId)
      (nodraw : Bool) (r : Bool) (s' : MarkerClusterer) :
      ReachFull cfg s →
      MarkerClusterer.removeMarkers cfg env s l nodraw = .ok (r, s') →
      ReachFull cfg s'
  | redraw (s s' : MarkerClusterer) (env : Env) :
      ReachFull cfg s → MarkerClusterer.redraw cfg env s = .ok s' →
      ReachFull cfg s'
  | repaint (s s' : MarkerClusterer) (env : Env) :
      ReachFull cfg s → MarkerClusterer.repaint cfg env s = .ok s' →
      ReachFull cfg s'
  | resetViewport (s : MarkerClusterer) (reset : Bool) :
      ReachFull cfg s → ReachFull cfg (s.resetViewport reset)
  | clearMarkers (s s' : MarkerClusterer) (env : Env) (nodraw : Bool) :
      ReachFull cfg s →
      MarkerClusterer.clearMarkers cfg env s nodraw = .ok s' →
      ReachFull cfg s'
  | removeCluster (s : MarkerClusterer) (i : Nat) :
      ReachFull cfg s → ReachFull cfg (s.removeCluster i)

/-- C2 (amended): in every state reachable by the engine's public
operations other than `removeCluster`, with every marker unclustered at
the moment it is registered, every tracked marker whose `isAdded` flag is
true is a member of exactly one active cluster, every tracked marker whose
flag is false is a member of none, and every member of an active cluster
is flagged.  (`removeCluster` breaks the invariant — see the
counterexample — as does re-registering a currently clustered marker.) -/
theorem C2_membership_invariant (cfg : Config) (s : MarkerClusterer)
    (h : Reach cfg s) : EngineInv s := by
  induction h with
  | init ms =>
      exact ⟨fun m hm => absurd hm (List.not_mem_nil m),
             fun c hc => absurd hc (List.not_mem_nil c)⟩
  | setReady s s' env r hre heq ih =>
      simp only [MarkerClusterer.setReady_] at heq
      by_cases hrb : (!s.ready_) = true
      · rw [if_pos hrb] at heq
        exact EngineInv_pass cfg env { s with ready_ := r } s' ih heq
      · rw [if_neg hrb, Except.ok.injEq] at heq
        subst heq
        exact ih
  | addMarker s s' env m nodraw hre hflag heq ih =>
      simp only [MarkerClusterer.addMarker] at heq
      have h2 : EngineInv (s.pushMarkerTo_ m) := EngineInv_push s m hflag ih
      by_cases hnd : nodraw = true
      · rw [if_pos hnd, Except.ok.injEq] at heq
        subst heq
        exact h2
      · rw [if_neg hnd] at heq
        exact EngineInv_pass cfg env
          { s.pushMarkerTo_ m with
              tree_ := (s.pushMarkerTo_ m).tree_ ++ [getMarkerNode env m] }
          s' h2 heq
  | addMarkers s s' env l nodraw hre hflags heq ih =>
      simp only [MarkerClusterer.addMarkers] at heq
      have h2 : EngineInv (l.foldl MarkerClusterer.pushMarkerTo_ s) :=
        EngineInv_pushFold l s ih hflags
      by_cases hnd : nodraw = true
      · rw [if_pos hnd, Except.ok.injEq] at heq
        subst heq
        exact h2
      · rw [if_neg hnd] at heq
        exact EngineInv_pass cfg env
          { l.foldl MarkerClusterer.pushMarkerTo_ s with
              tree_ := (l.foldl MarkerClusterer.pushMarkerTo_ s).tree_ ++
                l.map (getMarkerNode env) }
          s' h2 heq
  | removeMarker s env m nodraw r s' hre heq ih =>
      simp only [MarkerClusterer.removeMarker] at heq
      by_cases hc : (!nodraw && (s.removeMarker_ m).1) = true
      · rw [if_pos hc] at heq
        cases hcc : MarkerClusterer.createClusters_ cfg env
            ((s.removeMarker_ m).2.resetViewport false) with
        | error e =>
            rw [hcc] at heq
            simp [Except.map] at heq
        | ok t =>
            rw [hcc] at heq
            simp only [Except.map, Except.ok.injEq, Prod.mk.injEq] at heq
            rw [← heq.2]
            exact EngineInv_pass cfg env _ t (EngineInv_reset _ false) hcc
      · rw [if_neg hc, Except.ok.injEq, Prod.mk.injEq] at heq
        rw [← heq.2]
        exact EngineInv_removeMarkerAux s m ih
  | removeMarkers s env l nodraw r s' hre heq ih =>
      simp only [MarkerClusterer.removeMarkers] at heq
      by_cases hc : (!nodraw && (l.foldl removeStep (false, s)).1) = true
      · rw [if_pos hc] at heq
        cases hcc : MarkerClusterer.createClusters_ cfg env
            ((l.foldl removeStep (false, s)).2.resetViewport false) with
        | error e =>
            rw [hcc] at heq
            simp [Except.map] at heq
        | ok t =>
            rw [hcc] at heq
            simp only [Except.map, Except.ok.injEq, Prod.mk.injEq] at heq
            rw [← heq.2]
            exact EngineInv_pass cfg env _ t (EngineInv_reset _ false) hcc
      · rw [if_neg hc, Except.ok.injEq, Prod.mk.injEq] at heq
        rw [← heq.2]
        exact EngineInv_removeFold l false s ih
  | redraw s s' env hre heq ih =>
      exact EngineInv_pass cfg env s s' ih heq
  | repaint s s' env hre heq ih =>
      exact EngineInv_pass cfg env _ s' (EngineInv_reset s false) heq
  | resetViewport s reset hre ih =>
      exact EngineInv_reset s reset
  | clearMarkers s s' env nodraw hre heq ih =>
      simp only [MarkerClusterer.clearMarkers] at heq
      have hbase : EngineInv { s.resetViewport true with
          markers_ := ([] : List MarkerId),
          tree_ := ([] : List TreeNode) } :=
        ⟨fun m hm => absurd hm (List.not_mem_nil m),
         fun c hc => absurd hc (List.not_mem_nil c)⟩
      by_cases hnd : nodraw = true
      · rw [if_pos hnd, Except.ok.injEq] at heq
        subst heq
        exact hbase
      · rw [if_neg hnd] at heq
        exact EngineInv_pass cfg env _ s' hbase heq

/-- The tracked state right after registering marker 0 on a ready engine
(before the pass of `addMarker` runs). -/
def sBase : MarkerClusterer :=
  { markers_ := [0], clusters_ := [], ready_ := true,
    tree_ := [⟨0, 0, 0⟩],
    mstate := setSt msInit 0 { msInit 0 with isAdded := false } }

/-- The viewport of `envW` extended by the grid size of `cfgW`. -/
def mbW : LatLngBounds :=
  getExtendedBounds envW.proj cfgW.gridSize ⟨-10, -10, 10, 10⟩

/-- The engine state after `addMarker 0` (including its clustering pass)
on a ready empty engine under `envW`. -/
def sRun : MarkerClusterer :=
  sBase.markers_.foldl (clusterStep cfgW envW mbW) sBase

/-- The state after `removeCluster` discards the one active cluster of
`sRun`. -/
def sBad : MarkerClusterer := sRun.removeCluster 0

theorem mbW_eq : mbW = ⟨-70, -70, 70, 70⟩ := by
  norm_num [mbW, getExtendedBounds, LatLngBounds.extendPt, envW, cfgW,
    projW, min_def, max_def]

theorem mbW_contains : ¬ mbW.containsPt (envW.pos 0) = false := by
  rw [mbW_eq,
    show LatLngBounds.containsPt ⟨-70, -70, 70, 70⟩ (envW.pos 0) = true
      from by decide]
  simp

theorem sRun_flag : (sRun.mstate 0).isAdded = true := by
  show ((clusterStep cfgW envW mbW sBase 0).mstate 0).isAdded = true
  exact clusterStep_seedsFlag cfgW envW mbW sBase 0 (by decide)
    mbW_contains (by decide)

theorem sRun_clusters_len : sRun.clusters_.length = 1 := by
  show (clusterStep cfgW envW mbW sBase 0).clusters_.length = 1
  rw [clusterStep_build cfgW envW mbW sBase 0 (by decide) mbW_contains
    (by decide)]
  rfl

theorem sRun_markers : sRun.markers_ = [0] := by
  show (clusterStep cfgW envW mbW sBase 0).markers_ = [0]
  rw [(clusterStep_fields cfgW envW mbW sBase 0).1]
  rfl

theorem sBad_clusters : sBad.clusters_ = [] := by
  show (sRun.removeCluster 0).clusters_ = []
  unfold MarkerClusterer.removeCluster
  rw [if_pos (by rw [sRun_clusters_len]; omega)]
  show sRun.clusters_.eraseIdx 0 = []
  obtain ⟨a, ha⟩ := List.length_eq_one.mp sRun_clusters_len
  rw [ha]
  rfl

theorem sBad_markers : sBad.markers_ = sRun.markers_ := by
  unfold sBad MarkerClusterer.removeCluster
  split <;> rfl

theorem sBad_mstate : sBad.mstate = sRun.mstate := by
  unfold sBad MarkerClusterer.removeCluster
  split <;> rfl

/-- C2 counterexample: after mounting the engine, adding one marker inside
the viewport (which clusters it and flags it `isAdded`), and calling the
public operation `removeCluster` on the resulting cluster — a sequence of
the engine's public operations — the marker is still tracked and still
flagged as clustered but is a member of zero active clusters, refuting the
claimed invariant as stated. -/
theorem C2_counterexample :
    ReachFull cfgW sBad ∧ 0 ∈ sBad.markers_ ∧
    (sBad.mstate 0).isAdded = true ∧ sBad.clusterCount 0 = 0 := by
  refine ⟨?_, ?_, ?_, ?_⟩
  · exact ReachFull.removeCluster sRun 0
      (ReachFull.addMarker sReadyEmpty sRun envW 0 false
        (ReachFull.setReady _ sReadyEmpty envW true
          (ReachFull.init msInit) rfl)
        rfl)
  · rw [sBad_markers, sRun_markers]
    decide
  · rw [sBad_mstate]
    exact sRun_flag
  · unfold MarkerClusterer.clusterCount
    rw [sBad_clusters]
    rfl

theorem C2_witness : EngineInv sRun :=
  C2_membership_invariant cfgW sRun
    (Reach.addMarker sReadyEmpty sRun envW 0 false
      (Reach.setReady _ sReadyEmpty envW true (Reach.init msInit) rfl)
      rfl rfl)
